import Mathlib

/-!
# Content widgets: sanitizer, escaping and by-id resolution

A shallow embedding of the detail widgets (`factsheet-detail-widget.js`,
`newsletter-detail-widget.js`), of the renderers of the list widgets
(`factsheet-list-widget.js`, `newsletter-list-widget.js`) and of `widget.js`.
The browser supplies the markup parser, the serializer, the date and URL
functions and the promise machinery; the widget code is embedded as pure
functions over

* a DOM node tree (`Node`) for `sanitizeHtml`,
* JavaScript values (`Val`) for the JSON payloads and the rendered items,
* a backend answering `fetch` (`Backend`) for `fetchData` and `init`.
-/

namespace Widgets

/-! ## Strings -/

/-- The method `String.prototype.startsWith` with a literal prefix. -/
def startsWith (s p : String) : Bool := p.data.isPrefixOf s.data

/-! ## The DOM node tree -/

/-- An attribute of an element: qualified name and value. -/
structure Attr where
  name : String
  value : String
deriving DecidableEq, Repr

/-- A node of the DOM tree built by assigning `innerHTML`.  The field `id` stands for
the identity of the node object; it is never read by the widget code.  The tree is the
one `querySelectorAll` walks: the contents of a `template` element, which the DOM keeps
in a separate fragment, are not part of it. -/
inductive Node where
  | text (id : Nat) (data : String)
  | comment (id : Nat) (data : String)
  | element (id : Nat) (localName : String) (attrs : List Attr) (children : List Node)
deriving Repr

/-- The services of the browser that `sanitizeHtml` calls and that the repository does
not implement: the fragment parser behind the `innerHTML` setter of a fresh `div`, the
serializer behind its getter, and `String.prototype.toLowerCase`. -/
structure Host where
  parse : String → List Node
  serialize : List Node → String
  toLowerCase : String → String

/-- The constant `dangerousTags` of `sanitizeHtml`. -/
def dangerousTags : List String :=
  ["script", "iframe", "object", "embed", "form", "input", "button"]

mutual
/-- One node under `temp.querySelectorAll(tag).forEach((el) => el.remove())`: an element
matched by the type selector leaves the tree with everything below it. -/
def removeTagNode (tag : String) : Node → List Node
  | .text i d => [.text i d]
  | .comment i d => [.comment i d]
  | .element i n as cs =>
      if n = tag then [] else [.element i n as (removeTagForest tag cs)]
/-- The loop `temp.querySelectorAll(tag).forEach((el) => el.remove())` on the children
of `temp`. -/
def removeTagForest (tag : String) : List Node → List Node
  | [] => []
  | n :: ns => removeTagNode tag n ++ removeTagForest tag ns
end

/-- The loop `dangerousTags.forEach((tag) => ...)`: one removal pass per tag, in order. -/
def removeDangerous (t : List Node) : List Node :=
  dangerousTags.foldl (fun acc tag => removeTagForest tag acc) t

/-- The condition under which `sanitizeHtml` removes an attribute. -/
def isDangerousAttr (h : Host) (a : Attr) : Bool :=
  startsWith a.name "on" ||
  (a.name == "href" && startsWith (h.toLowerCase a.value) "javascript:") ||
  (a.name == "src" && startsWith (h.toLowerCase a.value) "javascript:")

/-- The call `el.removeAttribute(name)`: the first attribute with that qualified name is
removed.  (On an HTML element the DOM lower-cases `name` first; the parser has already
lower-cased the attribute names the sanitizer passes here.) -/
def removeAttribute (name : String) : List Attr → List Attr
  | [] => []
  | a :: as => if a.name = name then as else a :: removeAttribute name as

/-- The loop `Array.from(el.attributes).forEach((attr) => ...)`: it walks a snapshot of the
attributes and removes from the live list. -/
def scrubAttributes (h : Host) (attrs : List Attr) : List Attr :=
  attrs.foldl (fun live a => if isDangerousAttr h a then removeAttribute a.name live else live)
    attrs

mutual
/-- The attribute pass on one node and its descendants. -/
def scrubNode (h : Host) : Node → Node
  | .text i d => .text i d
  | .comment i d => .comment i d
  | .element i n as cs => .element i n (scrubAttributes h as) (scrubForest h cs)
/-- The loop `temp.querySelectorAll("*").forEach((el) => ...)`. -/
def scrubForest (h : Host) : List Node → List Node
  | [] => []
  | n :: ns => scrubNode h n :: scrubForest h ns
end

/-- The part of `sanitizeHtml` between parsing and serializing: remove the dangerous
elements, then the dangerous attributes of what is left. -/
def sanitizeTree (h : Host) (t : List Node) : List Node :=
  scrubForest h (removeDangerous t)

/-- The function `sanitizeHtml` on a string argument. -/
def sanitizeHtml (h : Host) (html : String) : String :=
  h.serialize (sanitizeTree h (h.parse html))

/-! ### Observations on a tree -/

mutual
/-- Identities of a node and of all its descendants, in tree order. -/
def nodeIdsNode : Node → List Nat
  | .text i _ => [i]
  | .comment i _ => [i]
  | .element i _ _ cs => i :: nodeIds cs
/-- Identities of all nodes of a forest, in tree order. -/
def nodeIds : List Node → List Nat
  | [] => []
  | n :: ns => nodeIdsNode n ++ nodeIds ns
end

mutual
/-- Local names of the elements of a node and its descendants. -/
def elementNamesNode : Node → List String
  | .text _ _ => []
  | .comment _ _ => []
  | .element _ n _ cs => n :: elementNames cs
/-- Local names of all elements of a forest, at any depth. -/
def elementNames : List Node → List String
  | [] => []
  | n :: ns => elementNamesNode n ++ elementNames ns
end

mutual
/-- Attribute lists of the elements of a node and its descendants. -/
def elementAttrsNode : Node → List (List Attr)
  | .text _ _ => []
  | .comment _ _ => []
  | .element _ _ as cs => as :: elementAttrs cs
/-- Attribute lists of all elements of a forest, at any depth. -/
def elementAttrs : List Node → List (List Attr)
  | [] => []
  | n :: ns => elementAttrsNode n ++ elementAttrs ns
end

mutual
/-- Identities of the dangerous elements of a node and of everything below them. -/
def dangerousIdsNode : Node → List Nat
  | .text _ _ => []
  | .comment _ _ => []
  | .element i n _ cs =>
      if n ∈ dangerousTags then i :: nodeIds cs else dangerousIds cs
/-- Identities of the elements of a forest whose tag is in `dangerousTags`, together with
the identities of all their descendants (elements, text and comments). -/
def dangerousIds : List Node → List Nat
  | [] => []
  | n :: ns => dangerousIdsNode n ++ dangerousIds ns
end

/-- No element carries two attributes of the same qualified name (an invariant of the
attribute list of a DOM element built by the parser). -/
def AttrsDistinct (t : List Node) : Prop :=
  ∀ as ∈ elementAttrs t, (as.map Attr.name).Nodup

/-! ## Escaping -/

/-- Serialization of one character of a text node (the `innerHTML` getter): `&`, `<`, `>`
and the no-break space are written as entities, every other character as itself. -/
def escapeChar (c : Char) : List Char :=
  if c = Char.ofNat 38 then "&amp;".data
  else if c = Char.ofNat 60 then "&lt;".data
  else if c = Char.ofNat 62 then "&gt;".data
  else if c = Char.ofNat 160 then "&nbsp;".data
  else [c]

/-- The function `escapeHtml` on a string argument: the text becomes the only text node of
a fresh `div`, whose `innerHTML` is read back. -/
def escapeHtml (text : String) : String :=
  String.mk (text.data.map escapeChar).flatten


/-- The double quote, as a string. -/
def dquote : String := String.singleton (Char.ofNat 34)

/-- The single quote, as a string. -/
def squote : String := String.singleton (Char.ofNat 39)

/-- The anchor that `renderFactsheetDetail` and `renderNewsletterDetail` write for a
non-empty `link` string: the escaped link between the double quotes of `href`, and again as
the text of the anchor. -/
def linkAnchor (link : String) : String :=
  "<p class=" ++ dquote ++ "detail-link" ++ dquote ++ "><a href=" ++ dquote ++
    escapeHtml link ++ dquote ++ " target=" ++ dquote ++ "_blank" ++ dquote ++ " rel=" ++
    dquote ++ "noopener noreferrer" ++ dquote ++ ">View Link: " ++ escapeHtml link ++
    "</a></p>"

/-! ## JavaScript values -/

/-- A JavaScript value as the widgets meet it: `undefined`, or a value produced by
`JSON.parse` (numbers are the integers). -/
inductive Val where
  | undefined
  | null
  | bool (b : Bool)
  | num (n : Int)
  | str (s : String)
  | arr (items : List Val)
  | obj (fields : List (String × Val))
deriving Repr

/-- Truthiness, as tested by `!x`, `x || y` and `x ? a : b`. -/
def Val.truthy : Val → Bool
  | .undefined => false
  | .null => false
  | .bool b => b
  | .num n => n != 0
  | .str s => s != ""
  | .arr _ => true
  | .obj _ => true

/-- Test for `null` and `undefined`: the values on which a property read throws and an
optional chain stops. -/
def Val.nullish : Val → Bool
  | .undefined => true
  | .null => true
  | _ => false

/-- The operator `a || b`. -/
def Val.or (a b : Val) : Val := if a.truthy then a else b

/-- Number of UTF-16 code units of a string (its `length`). -/
def utf16Length (s : String) : Nat :=
  (s.data.map (fun c => if c.val.toNat < 65536 then 1 else 2)).sum

/-- The read `v.key` on a value that is neither `null` nor `undefined`, for the identifier
keys the widgets read.  The last of several equal keys of an object wins, as in
`JSON.parse`.  Properties inherited from the built-in prototypes are left out, `length`
apart; of the names the widgets read this concerns only `link` on a string receiver. -/
def Val.prop (v : Val) (key : String) : Val :=
  match v with
  | .obj fields =>
      match fields.reverse.find? (fun kv => kv.1 == key) with
      | some kv => kv.2
      | none => .undefined
  | .arr items => if key = "length" then .num items.length else .undefined
  | .str s => if key = "length" then .num (utf16Length s) else .undefined
  | _ => .undefined

/-- The optional read `v?.key`. -/
def Val.optProp (v : Val) (key : String) : Val :=
  if v.nullish then .undefined else v.prop key

/-- The optional read `v?.[0]`.  On a string the result is its first character (for a
character outside the basic plane JavaScript yields its leading code unit; both are
non-empty strings). -/
def Val.optIndex0 (v : Val) : Val :=
  match v with
  | .arr items => items.head?.getD .undefined
  | .str s => match s.data with
      | [] => .undefined
      | ch :: _ => .str (String.singleton ch)
  | .obj fields => (Val.obj fields).prop "0"
  | _ => .undefined

mutual
/-- String conversion of a value, as applied by `new Error(value)` and by a template
literal. -/
def Val.toStr : Val → String
  | .undefined => "undefined"
  | .null => "null"
  | .bool b => if b then "true" else "false"
  | .num n => toString n
  | .str s => s
  | .arr items => Val.joinItems items
  | .obj _ => "[object Object]"
/-- String conversion of an array: `Array.prototype.join` with a comma. -/
def Val.joinItems : List Val → String
  | [] => ""
  | v :: rest =>
      (match v with
        | .undefined => ""
        | .null => ""
        | w => w.toStr) ++
      (match rest with
        | [] => ""
        | r :: rs => "," ++ Val.joinItems (r :: rs))
end

/-! ## The backend -/

/-- What the code throws or a promise rejects with. -/
inductive Thrown where
  -- an error `new Error(message)` thrown by the widget
  | error (message : String)
  -- a `TypeError` raised by the engine: a property read on `null` or `undefined`, or a
  -- call of something that is not a function
  | typeError
  -- a rejection of `fetch` or of `response.json()`, with the message of its reason
  | rejected (message : String)
deriving DecidableEq, Repr

/-- A response of `fetch`: its status and what `response.json()` settles to (the parsed
body, or the message of the rejection when the body is not JSON). -/
structure Response where
  status : Nat
  body : Except String Val

/-- The getter `response.ok`: the status is in the range 200 to 299. -/
def Response.ok (r : Response) : Bool := decide (200 ≤ r.status ∧ r.status ≤ 299)

/-- The call `response.json()`. -/
def Response.json (r : Response) : Except Thrown Val :=
  match r.body with
  | .error m => .error (.rejected m)
  | .ok data => .ok data

/-- How `fetch(url)` settles. -/
inductive FetchResult where
  | rejected (message : String)
  | response (r : Response)

/-- A backend: how `fetch` settles for each URL. -/
abbrev Backend := String → FetchResult

/-! ## The detail widgets -/

/-- The names in which the two detail widgets differ. -/
structure Content where
  singular : String
  plural : String
  label : String

/-- The names of `factsheet-detail-widget.js`. -/
def factsheets : Content := ⟨"factsheet", "factsheets", "Factsheet"⟩

/-- The names of `newsletter-detail-widget.js`. -/
def newsletters : Content := ⟨"newsletter", "newsletters", "Newsletter"⟩

/-- The URL of the direct lookup. -/
def directUrl (c : Content) (apiBaseUrl id : String) : String :=
  apiBaseUrl ++ "/" ++ c.plural ++ "/" ++ id

/-- The URL of the collection. -/
def listUrl (c : Content) (apiBaseUrl : String) : String :=
  apiBaseUrl ++ "/" ++ c.plural

/-- The expression `f._id || f.id` of the fallback scan. -/
def identityOf (f : Val) : Except Thrown Val :=
  if f.nullish then .error .typeError else .ok ((f.prop "_id").or (f.prop "id"))

/-- The comparison `v === id` with a string `id`. -/
def strictEqualsString (v : Val) (id : String) : Bool :=
  match v with
  | .str s => s == id
  | _ => false

/-- The call `items.find((f) => (f._id || f.id) === id)` on an array. -/
def findById (id : String) : List Val → Except Thrown Val
  | [] => .ok .undefined
  | f :: rest =>
      match identityOf f with
      | .error e => .error e
      | .ok k => if strictEqualsString k id then .ok f else findById id rest

/-- The callback `(listData) => ...` of the fallback. -/
def scanCollection (c : Content) (id : String) (listData : Val) : Except Thrown Val :=
  if !listData.truthy || !(listData.prop "data").truthy ||
      !((listData.prop "data").prop c.plural).truthy then
    .error (.error "Unexpected response structure")
  else
    match (listData.prop "data").prop c.plural with
    | .arr items =>
        match findById id items with
        | .error e => .error e
        | .ok item =>
            if !item.truthy then .error (.error (c.label ++ " not found"))
            else .ok (.obj [("data", .obj [(c.singular, item)])])
    | _ => .error .typeError

/-- The fallback chain, from the settled collection request on. -/
def fallback (c : Content) (id : String) (res : FetchResult) : Except Thrown Val :=
  match res with
  | .rejected m => .error (.rejected m)
  | .response listResponse =>
      if !listResponse.ok then
        .error (.error ("HTTP error! status: " ++ toString listResponse.status))
      else
        match listResponse.json with
        | .error e => .error e
        | .ok listData => scanCollection c id listData

/-- The branch of a status that is neither OK nor 404: what
`response.json().then((errorData) => ...)` rejects with. -/
def httpError (r : Response) : Thrown :=
  match r.json with
  | .error e => e
  | .ok errorData =>
      if errorData.nullish then .typeError
      else if (errorData.prop "message").truthy then .error (errorData.prop "message").toStr
      else .error ("HTTP error! status: " ++ toString r.status)

/-- Envelope unwrapping: the expression
`data.data?.factsheet || data.data?.factsheets?.[0] || data`. -/
def unwrap (c : Content) (data : Val) : Except Thrown Val :=
  if data.nullish then .error .typeError
  else
    .ok ((((data.prop "data").optProp c.singular).or
      ((data.prop "data").optProp c.plural).optIndex0).or data)

/-- What `fetchData` ends with. -/
inductive Outcome where
  -- the detail renderer is called with `item`
  | rendered (item : Val)
  -- the branch `if (!factsheet)` writes its not-found message
  | notFound
  -- the `catch` handler writes the message of `e`
  | failed (e : Thrown)

/-- The callback `(data) => ...` and the `catch` handler, from the settled first callback
on. -/
def display (c : Content) : Except Thrown Val → Outcome
  | .error e => .failed e
  | .ok data =>
      match unwrap c data with
      | .error e => .failed e
      | .ok item => if item.truthy then .rendered item else .notFound

/-- A run of `fetchData`: the URLs requested, in order, and the outcome. -/
structure Run where
  requests : List String
  outcome : Outcome

/-- The method `fetchData` of the detail widgets, for the configured `apiBaseUrl`, the
identifier (a string, as read from the URL or documented for the options) and a given
backend.  The promise chain is run to its end: the requests issued, in order, and the
branch that writes into the result element. -/
def fetchData (c : Content) (apiBaseUrl id : String) (backend : Backend) : Run :=
  match backend (directUrl c apiBaseUrl id) with
  | .rejected m => ⟨[directUrl c apiBaseUrl id], .failed (.rejected m)⟩
  | .response r =>
      if !r.ok then
        if r.status = 404 then
          ⟨[directUrl c apiBaseUrl id, listUrl c apiBaseUrl],
            display c (fallback c id (backend (listUrl c apiBaseUrl)))⟩
        else
          ⟨[directUrl c apiBaseUrl id], .failed (httpError r)⟩
      else
        ⟨[directUrl c apiBaseUrl id], display c r.json⟩

/-- Envelope unwrapping as the specification words it: the first value that is not null
among the singular wrapper, the first element of the plural wrapper and the payload. -/
def unwrapFirstNonNull (c : Content) (data : Val) : Option Val :=
  [(data.prop "data").optProp c.singular,
    ((data.prop "data").optProp c.plural).optIndex0, data].find? (fun v => !v.nullish)

/-! ## Auxiliary single-pass descriptions of the sanitizer -/

/-- Membership in `dangerousTags`, as a test. -/
def isDangerousTag (n : String) : Bool := decide (n ∈ dangerousTags)

mutual
/-- Removal, in one pass, of every element whose local name satisfies `p`, with its
descendants. -/
def pruneNode (p : String → Bool) : Node → List Node
  | .text i d => [.text i d]
  | .comment i d => [.comment i d]
  | .element i n as cs => if p n then [] else [.element i n as (pruneForest p cs)]
/-- Removal, in one pass, of every element of a forest whose local name satisfies `p`. -/
def pruneForest (p : String → Bool) : List Node → List Node
  | [] => []
  | n :: ns => pruneNode p n ++ pruneForest p ns
end

mutual
/-- Removal of the dangerous attributes of a node and its descendants by filtering. -/
def stripNode (h : Host) : Node → Node
  | .text i d => .text i d
  | .comment i d => .comment i d
  | .element i n as cs =>
      .element i n (as.filter (fun a => !isDangerousAttr h a)) (stripForest h cs)
/-- Removal of the dangerous attributes of every element of a forest by filtering. -/
def stripForest (h : Host) : List Node → List Node
  | [] => []
  | n :: ns => stripNode h n :: stripForest h ns
end


/-! ## A host that reads markup as plain text -/

/-- Lower-casing of the letters `A` to `Z`. -/
def lowerAscii (s : String) : String := String.mk (s.data.map Char.toLower)

/-- The text of the top-level text nodes of a forest, concatenated. -/
def topText : List Node → String
  | [] => ""
  | .text _ d :: ns => d ++ topText ns
  | .comment _ _ :: ns => topText ns
  | .element _ _ _ _ :: ns => topText ns

/-- A host that builds no element: non-empty markup parses to a single text node, and a
forest serializes to the text of its top-level text nodes. -/
def textHost : Host where
  parse := fun s => if s = "" then [] else [Node.text 0 s]
  serialize := topText
  toLowerCase := lowerAscii

/-- A link value that closes a double-quoted attribute and opens another one. -/
def breakoutLink : String :=
  dquote ++ " onmouseover=" ++ squote ++ "alert(1)" ++ squote ++ " x=" ++ dquote

/-! ## Sample payloads and backends -/

/-- An item with the identifier `42`. -/
def sampleItem : Val := .obj [("_id", .str "42"), ("title", .str "Q1")]

/-- A backend built from the answer to the direct lookup of item `42` and the answer to
the collection request, under the base URL `api`; every other request is rejected. -/
def mockBackend (direct list : FetchResult) : Backend := fun url =>
  if url = "api/factsheets/42" then direct
  else if url = "api/factsheets" then list
  else .rejected "Failed to fetch"

/-- The direct lookup answers 200 with the item in a singular wrapper. -/
def directOkBackend : Backend :=
  mockBackend (.response ⟨200, .ok (.obj [("data", .obj [("factsheet", sampleItem)])])⟩)
    (.rejected "Failed to fetch")

/-- The direct lookup answers 200 with the body `null`. -/
def okNullBackend : Backend :=
  mockBackend (.response ⟨200, .ok .null⟩) (.rejected "Failed to fetch")

/-- A collection of two items, the second of which has the identifier `42`. -/
def sampleCollection : Val :=
  .obj [("data", .obj [("factsheets", .arr [.obj [("id", .str "7")], sampleItem])])]

/-- The direct lookup answers 404 and the collection request answers 200 with
`sampleCollection`. -/
def fallbackBackend : Backend :=
  mockBackend (.response ⟨404, .error "Unexpected token"⟩) (.response ⟨200, .ok sampleCollection⟩)

/-- The direct lookup answers 500 with a message. -/
def serverErrorBackend : Backend :=
  mockBackend (.response ⟨500, .ok (.obj [("message", .str "boom")])⟩)
    (.response ⟨200, .ok sampleCollection⟩)

/-- The direct lookup is rejected. -/
def offlineBackend : Backend :=
  mockBackend (.rejected "Failed to fetch") (.response ⟨200, .ok sampleCollection⟩)

/-- The direct lookup answers 200 with a body that is not JSON. -/
def garbledBackend : Backend :=
  mockBackend (.response ⟨200, .error "Unexpected token"⟩) (.response ⟨200, .ok sampleCollection⟩)

/-- Both the direct lookup and the collection request answer 404. -/
def bothMissingBackend : Backend :=
  mockBackend (.response ⟨404, .error "Unexpected token"⟩)
    (.response ⟨404, .error "Unexpected token"⟩)

/-- The direct lookup answers 404 and the collection request answers 200 with an envelope
without the collection field. -/
def malformedBackend : Backend :=
  mockBackend (.response ⟨404, .error "Unexpected token"⟩)
    (.response ⟨200, .ok (.obj [("data", .obj [])])⟩)

/-- A payload whose singular wrapper holds `false` and whose plural wrapper holds an
item. -/
def falsyWrapperPayload : Val :=
  .obj [("data", .obj [("factsheet", .bool false),
    ("factsheets", .arr [.obj [("id", .str "a")]])])]

/-- A link whose `href` value has a space before `javascript:`. -/
def spacedLinkTree : List Node :=
  [.element 1 "a" [⟨"href", " javascript:alert(1)"⟩] [.text 2 "go"]]

/-- An element with `javascript:` values on attributes other than `href` and `src`. -/
def otherAttrTree : List Node :=
  [.element 1 "a" [⟨"xlink:href", "javascript:alert(1)"⟩, ⟨"action", "javascript:alert(1)"⟩,
    ⟨"formaction", "javascript:alert(1)"⟩] [.text 2 "go"]]

/-! ## Rendering -/

/-- A text between double quotes. -/
def quoted (s : String) : String := dquote ++ s ++ dquote

/-- The function `escapeHtml` on any value: its guard `typeof text !== "string"` returns
a value that is not a string unchanged. -/
def escapeHtmlVal (v : Val) : Val :=
  match v with
  | .str s => .str (escapeHtml s)
  | w => w

/-- The function `sanitizeHtml` on any value: its guard `typeof html !== "string"` returns
a value that is not a string unchanged. -/
def sanitizeHtmlVal (h : Host) (v : Val) : Val :=
  match v with
  | .str s => .str (sanitizeHtml h s)
  | w => w

/-- The constant `createdAt` of the renderers: the date text when the field is truthy, the
empty string otherwise.  The parameter `toLocaleDateString` stands for the host's
`new Date(value).toLocaleDateString()`. -/
def createdAtText (toLocaleDateString : Val → String) (item : Val) : String :=
  if (item.prop "createdAt").truthy then toLocaleDateString (item.prop "createdAt") else ""

/-- A loop `items.forEach((x) => { html += entry(x) })` started with `html`. -/
def forEachAppend (entry : Val → Except Thrown String) :
    String → List Val → Except Thrown String
  | html, [] => .ok html
  | html, x :: rest =>
      match entry x with
      | .error e => .error e
      | .ok s => forEachAppend entry (html ++ s) rest

/-- The callback of `section.content.map(...)`: one content entry in its `div`, after the
primitive `prim` (`sanitizeHtml` in the detail widgets, `escapeHtml` in `widget.js`). -/
def contentBlock (prim : Val → Val) (content : Val) : String :=
  "<div class=" ++ quoted "section-content" ++ ">" ++ (prim content).toStr ++ "</div>"

/-- The second hole of the section template: the content entries of a section when
`section.content` is an array, nothing otherwise. -/
def sectionContent (prim : Val → Val) (sec : Val) : String :=
  match sec.prop "content" with
  | .arr entries => String.join (entries.map (contentBlock prim))
  | _ => ""

/-- The body of the loop of `formatSections`: the markup of one section. -/
def sectionBlock (prim : Val → Val) (sec : Val) : Except Thrown String :=
  if sec.nullish then .error .typeError
  else
    .ok ("\n        <div class=" ++ quoted "section" ++ ">\n          <h4>" ++
      (escapeHtmlVal ((sec.prop "title").or (.str "Untitled Section"))).toStr ++
      "</h4>\n          " ++ sectionContent prim sec ++ "\n        </div>\n      ")

/-- The placeholder of `formatSections`. -/
def noSections : String :=
  "<p class=" ++ squote ++ "empty" ++ squote ++ ">No sections available</p>"

/-- The function `formatSections`, for the primitive applied to the content entries. -/
def formatSectionsWith (prim : Val → Val) (sections : Val) : Except Thrown String :=
  match sections with
  | .arr [] => .ok noSections
  | .arr (s :: rest) => forEachAppend (sectionBlock prim) "" (s :: rest)
  | _ => .ok noSections

/-- The function `formatSections` of the detail widgets. -/
def formatSections (h : Host) (sections : Val) : Except Thrown String :=
  formatSectionsWith (sanitizeHtmlVal h) sections

/-- The date line of the detail renderers. -/
def detailDate (toLocaleDateString : Val → String) (item : Val) : String :=
  if createdAtText toLocaleDateString item ≠ "" then
    "<p class=" ++ quoted "detail-date" ++ ">Published: " ++
      createdAtText toLocaleDateString item ++ "</p>"
  else ""

/-- The link line of the detail renderers, for the constant `link`. -/
def detailLink (link : Val) : String :=
  if link.truthy then
    "<p class=" ++ quoted "detail-link" ++ "><a href=" ++ quoted (escapeHtmlVal link).toStr ++
      " target=" ++ quoted "_blank" ++ " rel=" ++ quoted "noopener noreferrer" ++
      ">View Link: " ++ (escapeHtmlVal link).toStr ++ "</a></p>"
  else ""

/-- The functions `renderFactsheetDetail` and `renderNewsletterDetail`: the markup assigned
to `container.innerHTML`, or what the function throws. -/
def renderDetail (h : Host) (toLocaleDateString : Val → String) (item : Val) :
    Except Thrown String :=
  if item.nullish then .error .typeError
  else
    match formatSections h ((item.prop "sections").or (.arr [])) with
    | .error e => .error e
    | .ok sectionsHTML =>
        .ok ("\n      <div class=" ++ quoted "detail-item" ++ ">\n        <h1>" ++
          (escapeHtmlVal ((item.prop "title").or (.str "No title"))).toStr ++
          "</h1>\n        " ++ detailDate toLocaleDateString item ++
          "\n        <div class=" ++ quoted "detail-intro" ++ ">" ++
          (sanitizeHtmlVal h ((item.prop "intro").or (.str "No introduction"))).toStr ++
          "</div>\n        " ++ sectionsHTML ++ "\n        " ++
          detailLink ((item.prop "link").or (.str "")) ++ "\n      </div>\n    ")

/-! ## What the detail widgets write -/

/-- The property `error.message`.  The message of a `TypeError` is chosen by the engine and
is a parameter. -/
def Thrown.message (typeErrorMessage : String) : Thrown → String
  | .error m => m
  | .typeError => typeErrorMessage
  | .rejected m => m

/-- The markup of the `catch` handlers. -/
def errorMarkup (message : String) : String :=
  "<div class=" ++ quoted "error" ++ ">Error: " ++ message ++ "</div>"

/-- The markup of the branch `if (!factsheet)` of `fetchData`. -/
def notFoundMarkup (c : Content) : String :=
  "\n              <div class=" ++ quoted "error" ++ ">Error: " ++ c.label ++
    " not found</div>\n            "

/-- The markup that a run of `fetchData` leaves in the result element: the rendered item,
the not-found message, or the message of the error caught (an error thrown by the renderer
included). -/
def surface (c : Content) (h : Host) (toLocaleDateString : Val → String)
    (typeErrorMessage : String) : Outcome → String
  | .rendered item =>
      match renderDetail h toLocaleDateString item with
      | .ok markup => markup
      | .error e => errorMarkup (e.message typeErrorMessage)
  | .notFound => notFoundMarkup c
  | .failed e => errorMarkup (e.message typeErrorMessage)

/-- The message that `init` writes when no identifier is found. -/
def missingIdMarkup (c : Content) : String :=
  "<div class=" ++ quoted "error" ++ ">Error: " ++ c.label ++
    " ID not found. Please provide an ID in the URL (?id=...) or in the init options.</div>"

/-- What `init` of a detail widget is called with: the options `apiKey` and `factsheetId` /
`newsletterId` (`none` when absent or `null`), the value of
`new URLSearchParams(window.location.search).get("id")` and whether the target element
exists. -/
structure InitInput where
  apiKey : String
  id : Option String
  urlId : Option String
  targetExists : Bool

/-- How `init` of a detail widget ends. -/
inductive InitResult where
  -- the API key is missing: an error is logged
  | noApiKey
  -- no identifier: an error is logged and `message` is written into the target, if any
  | missingId (message : Option String)
  -- the target element does not exist: an error is logged
  | noTarget
  -- the loading state is rendered and `fetchData` runs
  | started (run : Run)

/-- The method `init` of the detail widgets. -/
def init (c : Content) (apiBaseUrl : String) (input : InitInput) (backend : Backend) :
    InitResult :=
  if input.apiKey = "" then .noApiKey
  else
    let configured : Option String :=
      match input.id with
      | some s => if s = "" then input.urlId else some s
      | none => input.urlId
    match configured with
    | none => .missingId (if input.targetExists then some (missingIdMarkup c) else none)
    | some s =>
        if s = "" then
          .missingId (if input.targetExists then some (missingIdMarkup c) else none)
        else if !input.targetExists then .noTarget
        else .started (fetchData c apiBaseUrl s backend)

/-- The requests issued by a call of `init`. -/
def InitResult.requests : InitResult → List String
  | .started run => run.requests
  | _ => []

/-! ## The list widgets -/

/-- The functions `getFactsheetId` and `getNewsletterId`. -/
def getId (item : Val) : Except Thrown Val :=
  if item.nullish then .error .typeError
  else .ok (((item.prop "_id").or (item.prop "id")).or (.str ""))

/-- The test `newsletters.length === 0`. -/
def lengthIsZero (items : Val) : Bool :=
  match items.prop "length" with
  | .num n => n == 0
  | _ => false

/-- The frame shared by the list renderers: the placeholder `empty` when the collection is
falsy or of length zero, otherwise the entries appended by `forEach`; a value without
`forEach` makes the call throw. -/
def renderEach (empty : String) (entry : Val → Except Thrown String) (items : Val) :
    Except Thrown String :=
  if !items.truthy || lengthIsZero items then .ok empty
  else
    match items with
    | .arr xs => forEachAppend entry "" xs
    | _ => .error .typeError

/-- The date line of the renderers of `widget.js`. -/
def widgetDate (toLocaleDateString : Val → String) (item : Val) : String :=
  if createdAtText toLocaleDateString item ≠ "" then
    "<p><small>Created: " ++ createdAtText toLocaleDateString item ++ "</small></p>"
  else ""

/-- The link line of the renderers of `widget.js`, for the constant `link`. -/
def widgetLink (link : Val) : String :=
  if link.truthy then
    "<p><a href=" ++ quoted (escapeHtmlVal link).toStr ++
      " target=" ++ quoted "_blank" ++ " rel=" ++ quoted "noopener noreferrer" ++
      ">View Link: " ++ (escapeHtmlVal link).toStr ++ "</a></p>"
  else ""

/-- The body of the loop of `renderNewsletters` and `renderFactsheets` of `widget.js`: the
entry of one item, its sections formatted by the `formatSections` of that file. -/
def widgetEntry (toLocaleDateString : Val → String) (item : Val) : Except Thrown String :=
  if item.nullish then .error .typeError
  else
    match formatSectionsWith escapeHtmlVal ((item.prop "sections").or (.arr [])) with
    | .error e => .error e
    | .ok sectionsHTML =>
        .ok ("\n        <div class=" ++ quoted "item" ++ ">\n          <h3>" ++
          (escapeHtmlVal ((item.prop "title").or (.str "No title"))).toStr ++
          "</h3>\n          " ++ widgetDate toLocaleDateString item ++ "\n          <p>" ++
          (escapeHtmlVal ((item.prop "intro").or (.str "No introduction"))).toStr ++
          "</p>\n          " ++ sectionsHTML ++ "\n          " ++
          widgetLink ((item.prop "link").or (.str "")) ++ "\n        </div>\n      ")

/-- The function `renderNewsletters` of `widget.js`: the markup assigned to
`container.innerHTML`. -/
def renderNewsletters (toLocaleDateString : Val → String) (items : Val) :
    Except Thrown String :=
  renderEach ("<p class=" ++ quoted "empty" ++ ">No newsletters found</p>")
    (widgetEntry toLocaleDateString) items

/-- The first callback of `fetchData` in `widget.js` and in the list widgets: a status that
is not OK rejects with the error built from the body, an OK status yields the parsed
body. -/
def listResponse (r : Response) : Except Thrown Val :=
  if !r.ok then .error (httpError r) else r.json

/-- The markup of the branch for an unexpected structure in `widget.js` and in the list
widgets, around the text of `JSON.stringify(data, null, 2)`. -/
def unexpectedMarkup (json : String) : String :=
  "\n              <div class=" ++ quoted "error" ++
    ">Error: Unexpected response structure</div>\n              <pre>" ++ json ++
    "</pre>\n            "

/-- The newsletters half of `NewsletterWidget.fetchData` in `widget.js`: the markup left in
the result element.  The parameter `stringify` stands for the host's
`JSON.stringify(data, null, 2)`. -/
def fetchNewsletters (stringify : Val → String) (toLocaleDateString : Val → String)
    (typeErrorMessage : String) (apiBaseUrl : String) (backend : Backend) : String :=
  match backend (apiBaseUrl ++ "/newsletters") with
  | .rejected m => errorMarkup m
  | .response r =>
      match listResponse r with
      | .error e => errorMarkup (e.message typeErrorMessage)
      | .ok data =>
          if !data.truthy || !(data.prop "data").truthy ||
              !((data.prop "data").prop "newsletters").truthy then
            unexpectedMarkup (stringify data)
          else
            match renderNewsletters toLocaleDateString ((data.prop "data").prop "newsletters") with
            | .ok markup => markup
            | .error e => errorMarkup (e.message typeErrorMessage)

/-! ## Layouts: the markup as a function of texts already escaped or sanitized -/

/-- The layout of one content entry around its sanitized text. -/
def contentLayout (content : String) : String :=
  "<div class=" ++ quoted "section-content" ++ ">" ++ content ++ "</div>"

/-- The layout of one section around its escaped title and its sanitized content entries,
in their order. -/
def sectionLayout (title : String) (contents : List String) : String :=
  "\n        <div class=" ++ quoted "section" ++ ">\n          <h4>" ++ title ++
    "</h4>\n          " ++ String.join (contents.map contentLayout) ++ "\n        </div>\n      "

/-- The layout of the link line around the escaped link, used as `href` value and as text of
the anchor. -/
def linkLayout (link : String) : String :=
  "<p class=" ++ quoted "detail-link" ++ "><a href=" ++ quoted link ++
    " target=" ++ quoted "_blank" ++ " rel=" ++ quoted "noopener noreferrer" ++
    ">View Link: " ++ link ++ "</a></p>"

/-- The layout of the date line around the date text. -/
def dateLayout (date : String) : String :=
  "<p class=" ++ quoted "detail-date" ++ ">Published: " ++ date ++ "</p>"

/-- The layout of the detail page around its five parts. -/
def detailLayout (title date intro sections link : String) : String :=
  "\n      <div class=" ++ quoted "detail-item" ++ ">\n        <h1>" ++ title ++
    "</h1>\n        " ++ date ++ "\n        <div class=" ++ quoted "detail-intro" ++ ">" ++
    intro ++ "</div>\n        " ++ sections ++ "\n        " ++ link ++ "\n      </div>\n    "

/-- The sections of an item: the entries of `item.sections` when it is an array. -/
def sectionsOf (item : Val) : List Val :=
  match item.prop "sections" with
  | .arr ss => ss
  | _ => []

/-- The content entries of a section: the entries of `section.content` when it is an
array. -/
def contentsOf (sec : Val) : List Val :=
  match sec.prop "content" with
  | .arr cs => cs
  | _ => []

/-- The title of an item as the renderers show it. -/
def titleOf (item : Val) : Val := (item.prop "title").or (.str "No title")

/-- The introduction of an item as the renderers show it. -/
def introOf (item : Val) : Val := (item.prop "intro").or (.str "No introduction")

/-- The link of an item as the renderers read it. -/
def linkOf (item : Val) : Val := (item.prop "link").or (.str "")

/-- The title of a section as the renderers show it. -/
def sectionTitleOf (sec : Val) : Val := (sec.prop "title").or (.str "Untitled Section")

/-- The sections part of a page, for the primitive applied to the content entries: the
placeholder without sections, otherwise one section layout per section, in order, each
around its escaped title and its content entries after the primitive, one by one. -/
def sectionsJoin (prim : Val → Val) (ss : List Val) : String :=
  match ss with
  | [] => noSections
  | s :: rest =>
      String.join ((s :: rest).map (fun sec =>
        sectionLayout (escapeHtmlVal (sectionTitleOf sec)).toStr
          ((contentsOf sec).map (fun c => (prim c).toStr))))

/-- The sections part of the detail page: the content entries are sanitized. -/
def sectionsLayout (h : Host) (item : Val) : String :=
  sectionsJoin (sanitizeHtmlVal h) (sectionsOf item)

/-! ## Identifier fields -/

/-- An identifier field that is absent or empty: `undefined`, `null` or the empty string. -/
def Val.isEmptyId : Val → Bool
  | .undefined => true
  | .null => true
  | .str s => s == ""
  | _ => false

/-- An identifier field as the data model types it: absent, or a string. -/
def Val.isIdField : Val → Bool
  | .undefined => true
  | .null => true
  | .str _ => true
  | _ => false

/-- The identity of an item as the specification words it: the first value that is not
empty among the fields `_id` and `id`, in this order. -/
def firstNonEmptyId (item : Val) : Option Val :=
  [item.prop "_id", item.prop "id"].find? (fun v => !v.isEmptyId)

/-! ## More sample payloads and backends -/

/-- The request `api/factsheets/`, which `fetchData` builds from the empty identifier,
answers 200 with `sampleCollection`. -/
def trailingSlashBackend : Backend := fun url =>
  if url = "api/factsheets/" then .response ⟨200, .ok sampleCollection⟩
  else .rejected "Failed to fetch"

/-- The direct lookup answers 500 with a message that is markup. -/
def markupErrorBackend : Backend :=
  mockBackend
    (.response ⟨500, .ok (.obj [("message", .str "<img src=x onerror=alert(1)>")])⟩)
    (.rejected "Failed to fetch")

/-- An item with a title, a date, two sections and a link. -/
def fullItem : Val :=
  .obj [("_id", .str "42"), ("title", .str "Q<1>"), ("createdAt", .str "2024-01-01"),
    ("intro", .str "hello"), ("link", .str "http://example.org/"),
    ("sections", .arr [.obj [("title", .str "S1"), ("content", .arr [.str "c1", .str "c2"])],
      .obj [("content", .arr [.str "c3"])]])]

/-- A date formatter for the samples: the text of the value after the word `on`. -/
def sampleDate : Val → String := fun v => "on " ++ v.toStr

/-- The collection request of `widget.js` answers 500 with a message that is markup. -/
def markupErrorListBackend : Backend := fun url =>
  if url = "api/newsletters" then
    .response ⟨500, .ok (.obj [("message", .str "<img src=x onerror=alert(1)>")])⟩
  else .rejected "Failed to fetch"

mutual
theorem removeTagNode_eq_prune (tag : String) :
    ∀ n : Node, removeTagNode tag n = pruneNode (fun m => m == tag) n
  | .text _ _ => by simp [removeTagNode, pruneNode]
  | .comment _ _ => by simp [removeTagNode, pruneNode]
  | .element i n as cs => by
      simp [removeTagNode, pruneNode, removeTagForest_eq_prune tag cs]
theorem removeTagForest_eq_prune (tag : String) :
    ∀ t : List Node, removeTagForest tag t = pruneForest (fun m => m == tag) t
  | [] => by simp [removeTagForest, pruneForest]
  | n :: ns => by
      simp [removeTagForest, pruneForest, removeTagNode_eq_prune tag n,
        removeTagForest_eq_prune tag ns]
end

theorem pruneForest_append (p : String → Bool) (s t : List Node) :
    pruneForest p (s ++ t) = pruneForest p s ++ pruneForest p t := by
  induction s with
  | nil => simp [pruneForest]
  | cons n ns ih => simp [pruneForest, ih]

mutual
theorem pruneNode_prune (p q : String → Bool) :
    ∀ n : Node, pruneForest p (pruneNode q n) = pruneNode (fun m => q m || p m) n
  | .text _ _ => by simp [pruneNode, pruneForest]
  | .comment _ _ => by simp [pruneNode, pruneForest]
  | .element i n as cs => by
      by_cases hq : q n = true
      · simp [pruneNode, pruneForest, hq]
      · by_cases hp : p n = true
        · simp [pruneNode, pruneForest, hq, hp]
        · simp [pruneNode, pruneForest, hq, hp, pruneForest_prune p q cs]
theorem pruneForest_prune (p q : String → Bool) :
    ∀ t : List Node, pruneForest p (pruneForest q t) = pruneForest (fun m => q m || p m) t
  | [] => by simp [pruneForest]
  | n :: ns => by
      simp [pruneForest, pruneForest_append, pruneNode_prune p q n, pruneForest_prune p q ns]
end

theorem nodeIds_append (s t : List Node) : nodeIds (s ++ t) = nodeIds s ++ nodeIds t := by
  induction s with
  | nil => simp [nodeIds]
  | cons n ns ih => simp [nodeIds, ih]

theorem elementNames_append (s t : List Node) :
    elementNames (s ++ t) = elementNames s ++ elementNames t := by
  induction s with
  | nil => simp [elementNames]
  | cons n ns ih => simp [elementNames, ih]

theorem elementAttrs_append (s t : List Node) :
    elementAttrs (s ++ t) = elementAttrs s ++ elementAttrs t := by
  induction s with
  | nil => simp [elementAttrs]
  | cons n ns ih => simp [elementAttrs, ih]

mutual
theorem elementNames_pruneNode (p : String → Bool) :
    ∀ n : Node, ∀ m ∈ elementNames (pruneNode p n), p m = false
  | .text _ _ => by simp [pruneNode, elementNames, elementNamesNode]
  | .comment _ _ => by simp [pruneNode, elementNames, elementNamesNode]
  | .element i n as cs => by
      intro m hm
      by_cases hp : p n = true
      · simp [pruneNode, hp, elementNames] at hm
      · simp [pruneNode, hp, elementNames, elementNamesNode] at hm
        rcases hm with rfl | hm
        · simpa using hp
        · exact elementNames_pruneForest p cs m hm
theorem elementNames_pruneForest (p : String → Bool) :
    ∀ t : List Node, ∀ m ∈ elementNames (pruneForest p t), p m = false
  | [] => by simp [pruneForest, elementNames]
  | n :: ns => by
      intro m hm
      simp only [pruneForest, elementNames_append, List.mem_append] at hm
      rcases hm with hm | hm
      · exact elementNames_pruneNode p n m hm
      · exact elementNames_pruneForest p ns m hm
end

mutual
theorem elementNames_scrubNode (h : Host) :
    ∀ n : Node, elementNamesNode (scrubNode h n) = elementNamesNode n
  | .text _ _ => by simp [scrubNode]
  | .comment _ _ => by simp [scrubNode]
  | .element i n as cs => by
      simp [scrubNode, elementNamesNode, elementNames_scrubForest h cs]
theorem elementNames_scrubForest (h : Host) :
    ∀ t : List Node, elementNames (scrubForest h t) = elementNames t
  | [] => by simp [scrubForest]
  | n :: ns => by
      simp [scrubForest, elementNames, elementNames_scrubNode h n,
        elementNames_scrubForest h ns]
end

mutual
theorem nodeIds_scrubNode (h : Host) :
    ∀ n : Node, nodeIdsNode (scrubNode h n) = nodeIdsNode n
  | .text _ _ => by simp [scrubNode]
  | .comment _ _ => by simp [scrubNode]
  | .element i n as cs => by
      simp [scrubNode, nodeIdsNode, nodeIds_scrubForest h cs]
theorem nodeIds_scrubForest (h : Host) :
    ∀ t : List Node, nodeIds (scrubForest h t) = nodeIds t
  | [] => by simp [scrubForest]
  | n :: ns => by
      simp [scrubForest, nodeIds, nodeIds_scrubNode h n, nodeIds_scrubForest h ns]
end

mutual
theorem nodeIds_pruneNode_perm :
    ∀ n : Node, List.Perm (nodeIdsNode n)
      (nodeIds (pruneNode isDangerousTag n) ++ dangerousIdsNode n)
  | .text _ _ => by simp [pruneNode, nodeIds, nodeIdsNode, dangerousIdsNode]
  | .comment _ _ => by simp [pruneNode, nodeIds, nodeIdsNode, dangerousIdsNode]
  | .element i n as cs => by
      by_cases hp : n ∈ dangerousTags
      · have hp2 : isDangerousTag n = true := by simp [isDangerousTag, hp]
        simp [pruneNode, hp2, nodeIds, nodeIdsNode, dangerousIdsNode, hp]
      · have hp2 : isDangerousTag n = false := by simp [isDangerousTag, hp]
        simp only [pruneNode, hp2, nodeIds, nodeIdsNode, dangerousIdsNode, hp, if_false,
          List.append_nil, List.cons_append, Bool.false_eq_true]
        exact List.Perm.cons i (nodeIds_pruneForest_perm cs)
theorem nodeIds_pruneForest_perm :
    ∀ t : List Node, List.Perm (nodeIds t)
      (nodeIds (pruneForest isDangerousTag t) ++ dangerousIds t)
  | [] => by simp [pruneForest, nodeIds, dangerousIds]
  | n :: ns => by
      simp only [pruneForest, nodeIds, dangerousIds, nodeIds_append]
      have h1 := nodeIds_pruneNode_perm n
      have h2 := nodeIds_pruneForest_perm ns
      have h3 := List.Perm.append h1 h2
      refine h3.trans ?_
      simp only [List.append_assoc]
      refine List.Perm.append_left _ ?_
      rw [← List.append_assoc, ← List.append_assoc]
      exact List.Perm.append_right _ List.perm_append_comm
end

mutual
theorem elementAttrs_pruneNode (p : String → Bool) :
    ∀ n : Node, ∀ as ∈ elementAttrs (pruneNode p n), as ∈ elementAttrsNode n
  | .text _ _ => by simp [pruneNode, elementAttrs, elementAttrsNode]
  | .comment _ _ => by simp [pruneNode, elementAttrs, elementAttrsNode]
  | .element i n as cs => by
      intro bs hbs
      by_cases hp : p n = true
      · simp [pruneNode, hp, elementAttrs] at hbs
      · simp [pruneNode, hp, elementAttrs, elementAttrsNode] at hbs
        rcases hbs with rfl | hbs
        · simp [elementAttrsNode]
        · simp [elementAttrsNode, elementAttrs_pruneForest p cs bs hbs]
theorem elementAttrs_pruneForest (p : String → Bool) :
    ∀ t : List Node, ∀ as ∈ elementAttrs (pruneForest p t), as ∈ elementAttrs t
  | [] => by simp [pruneForest, elementAttrs]
  | n :: ns => by
      intro bs hbs
      simp only [pruneForest, elementAttrs_append, List.mem_append] at hbs
      simp only [elementAttrs, List.mem_append]
      rcases hbs with hbs | hbs
      · exact Or.inl (elementAttrs_pruneNode p n bs hbs)
      · exact Or.inr (elementAttrs_pruneForest p ns bs hbs)
end

theorem removeAttribute_eq_filter (name : String) :
    ∀ l : List Attr, (l.map Attr.name).Nodup →
      removeAttribute name l = l.filter (fun b => !(b.name == name))
  | [], _ => by simp [removeAttribute]
  | a :: as, hl => by
      simp only [List.map_cons, List.nodup_cons] at hl
      by_cases ha : a.name = name
      · have hnot : ∀ b ∈ as, (!(b.name == name)) = true := by
          intro b hb
          have : b.name ≠ name := by
            intro hbn
            exact hl.1 (List.mem_map.mpr ⟨b, hb, hbn.trans ha.symm⟩)
          simpa using this
        simp [removeAttribute, ha, List.filter_eq_self.mpr hnot]
      · simp [removeAttribute, ha, removeAttribute_eq_filter name as hl.2]

theorem nodup_names_filter (q : Attr → Bool) (l : List Attr)
    (hl : (l.map Attr.name).Nodup) : ((l.filter q).map Attr.name).Nodup :=
  List.Nodup.sublist (List.Sublist.map _ (List.filter_sublist l)) hl

theorem scrub_foldl (h : Host) :
    ∀ (s l : List Attr), (l.map Attr.name).Nodup →
      s.foldl (fun live a => if isDangerousAttr h a then removeAttribute a.name live else live) l
        = l.filter (fun b => !(s.any (fun a => isDangerousAttr h a && (a.name == b.name))))
  | [], l, _ => by simp
  | a :: s, l, hl => by
      simp only [List.foldl_cons]
      by_cases ha : isDangerousAttr h a = true
      · simp only [ha, if_true]
        rw [removeAttribute_eq_filter a.name l hl,
          scrub_foldl h s _ (nodup_names_filter _ l hl), List.filter_filter]
        apply List.filter_congr
        intro b _
        by_cases hb : a.name = b.name
        · simp [ha, hb]
        · have hb2 : (b.name == a.name) = false := by
            simpa using (fun e : b.name = a.name => hb e.symm)
          have hb3 : (a.name == b.name) = false := by simpa using hb
          simp [ha, hb2, hb3]
      · simp only [ha, if_false, Bool.false_eq_true]
        rw [scrub_foldl h s l hl]
        apply List.filter_congr
        intro b _
        simp [ha]

theorem scrubAttributes_eq_filter (h : Host) (l : List Attr)
    (hl : (l.map Attr.name).Nodup) :
    scrubAttributes h l = l.filter (fun a => !isDangerousAttr h a) := by
  unfold scrubAttributes
  rw [scrub_foldl h l l hl]
  apply List.filter_congr
  intro b hb
  by_cases hd : isDangerousAttr h b = true
  · have : (l.any (fun a => isDangerousAttr h a && (a.name == b.name))) = true := by
      rw [List.any_eq_true]
      exact ⟨b, hb, by simp [hd]⟩
    simp [this, hd]
  · have : (l.any (fun a => isDangerousAttr h a && (a.name == b.name))) = false := by
      rw [List.any_eq_false]
      intro a ha hab
      simp only [Bool.and_eq_true, beq_iff_eq] at hab
      have hab2 : a = b :=
        List.inj_on_of_nodup_map hl ha hb hab.2
      exact hd (hab2 ▸ hab.1)
    simp [this, hd]

mutual
theorem scrubNode_eq_strip (h : Host) :
    ∀ n : Node, (∀ as ∈ elementAttrsNode n, (as.map Attr.name).Nodup) →
      scrubNode h n = stripNode h n
  | .text _ _, _ => by simp [scrubNode, stripNode]
  | .comment _ _, _ => by simp [scrubNode, stripNode]
  | .element i n as cs, hn => by
      have h1 : (as.map Attr.name).Nodup := hn as (by simp [elementAttrsNode])
      have h2 : ∀ bs ∈ elementAttrs cs, (bs.map Attr.name).Nodup :=
        fun bs hbs => hn bs (by simp [elementAttrsNode, hbs])
      simp [scrubNode, stripNode, scrubAttributes_eq_filter h as h1,
        scrubForest_eq_strip h cs h2]
theorem scrubForest_eq_strip (h : Host) :
    ∀ t : List Node, AttrsDistinct t → scrubForest h t = stripForest h t
  | [], _ => by simp [scrubForest, stripForest]
  | n :: ns, ht => by
      have h1 : ∀ as ∈ elementAttrsNode n, (as.map Attr.name).Nodup :=
        fun as has => ht as (by simp [elementAttrs, has])
      have h2 : AttrsDistinct ns :=
        fun as has => ht as (by simp [elementAttrs, has])
      simp [scrubForest, stripForest, scrubNode_eq_strip h n h1, scrubForest_eq_strip h ns h2]
end

mutual
theorem elementAttrs_stripNode (h : Host) :
    ∀ n : Node, elementAttrsNode (stripNode h n)
      = (elementAttrsNode n).map (fun as => as.filter (fun a => !isDangerousAttr h a))
  | .text _ _ => by simp [stripNode, elementAttrsNode]
  | .comment _ _ => by simp [stripNode, elementAttrsNode]
  | .element i n as cs => by
      simp [stripNode, elementAttrsNode, elementAttrs_stripForest h cs]
theorem elementAttrs_stripForest (h : Host) :
    ∀ t : List Node, elementAttrs (stripForest h t)
      = (elementAttrs t).map (fun as => as.filter (fun a => !isDangerousAttr h a))
  | [] => by simp [stripForest, elementAttrs]
  | n :: ns => by
      simp [stripForest, elementAttrs, elementAttrs_stripNode h n,
        elementAttrs_stripForest h ns]
end

mutual
theorem pruneNode_id (p : String → Bool) :
    ∀ n : Node, (∀ m ∈ elementNamesNode n, p m = false) → pruneNode p n = [n]
  | .text _ _, _ => by simp [pruneNode]
  | .comment _ _, _ => by simp [pruneNode]
  | .element i n as cs, hn => by
      have h1 : p n = false := hn n (by simp [elementNamesNode])
      have h2 : ∀ m ∈ elementNames cs, p m = false :=
        fun m hm => hn m (by simp [elementNamesNode, hm])
      simp [pruneNode, h1, pruneForest_id p cs h2]
theorem pruneForest_id (p : String → Bool) :
    ∀ t : List Node, (∀ m ∈ elementNames t, p m = false) → pruneForest p t = t
  | [], _ => by simp [pruneForest]
  | n :: ns, ht => by
      have h1 : ∀ m ∈ elementNamesNode n, p m = false :=
        fun m hm => ht m (by simp [elementNames, hm])
      have h2 : ∀ m ∈ elementNames ns, p m = false :=
        fun m hm => ht m (by simp [elementNames, hm])
      simp [pruneForest, pruneNode_id p n h1, pruneForest_id p ns h2]
end

mutual
theorem stripNode_idem (h : Host) : ∀ n : Node, stripNode h (stripNode h n) = stripNode h n
  | .text _ _ => by simp [stripNode]
  | .comment _ _ => by simp [stripNode]
  | .element i n as cs => by
      simp [stripNode, List.filter_filter, stripForest_idem h cs]
theorem stripForest_idem (h : Host) :
    ∀ t : List Node, stripForest h (stripForest h t) = stripForest h t
  | [] => by simp [stripForest]
  | n :: ns => by simp [stripForest, stripNode_idem h n, stripForest_idem h ns]
end

theorem escapeChar_no_angle (c d : Char) (hd : d ∈ escapeChar c) :
    d ≠ Char.ofNat 60 ∧ d ≠ Char.ofNat 62 := by
  unfold escapeChar at hd
  split_ifs at hd with h1 h2 h3 h4
  · have : d ∈ ['&', 'a', 'm', 'p', ';'] := hd
    simp only [List.mem_cons, List.mem_singleton, List.not_mem_nil, or_false] at this
    rcases this with rfl | rfl | rfl | rfl | rfl <;> decide
  · have : d ∈ ['&', 'l', 't', ';'] := hd
    simp only [List.mem_cons, List.mem_singleton, List.not_mem_nil, or_false] at this
    rcases this with rfl | rfl | rfl | rfl <;> decide
  · have : d ∈ ['&', 'g', 't', ';'] := hd
    simp only [List.mem_cons, List.mem_singleton, List.not_mem_nil, or_false] at this
    rcases this with rfl | rfl | rfl | rfl <;> decide
  · have : d ∈ ['&', 'n', 'b', 's', 'p', ';'] := hd
    simp only [List.mem_cons, List.mem_singleton, List.not_mem_nil, or_false] at this
    rcases this with rfl | rfl | rfl | rfl | rfl | rfl <;> decide
  · simp only [List.mem_singleton] at hd
    subst hd
    exact ⟨h2, h3⟩

theorem escapeHtml_no_angle (s : String) (d : Char) (hd : d ∈ (escapeHtml s).data) :
    d ≠ Char.ofNat 60 ∧ d ≠ Char.ofNat 62 := by
  simp only [escapeHtml, List.mem_flatten, List.mem_map] at hd
  obtain ⟨l, ⟨c, _, rfl⟩, hdl⟩ := hd
  exact escapeChar_no_angle c d hdl

theorem escapeHtml_append (s t : String) :
    escapeHtml (s ++ t) = escapeHtml s ++ escapeHtml t := by
  apply String.ext
  simp [escapeHtml, String.data_append]

/-! ## Lemmas on the plain-text host -/

theorem topText_append (s t : List Node) : topText (s ++ t) = topText s ++ topText t := by
  induction s with
  | nil => simp [topText]
  | cons n ns ih => cases n <;> simp [topText, ih, String.append_assoc]

/-- Characterisation of `escapeHtml`: it works character by character; it writes `&`, `<` and `>` as
the entities `&amp;`, `&lt;` and `&gt;` (and the no-break space as `&nbsp;`) and copies
every other character, the double and the single quote included; its output contains no
literal `<` and no literal `>`. -/
theorem escapeHtml_chars :
    (∀ s t : String, escapeHtml (s ++ t) = escapeHtml s ++ escapeHtml t) ∧
    escapeHtml "" = "" ∧
    escapeHtml "&" = "&amp;" ∧ escapeHtml "<" = "&lt;" ∧ escapeHtml ">" = "&gt;" ∧
    escapeHtml (String.singleton (Char.ofNat 160)) = "&nbsp;" ∧
    escapeHtml dquote = dquote ∧ escapeHtml squote = squote ∧
    (∀ ch : Char, ch ≠ Char.ofNat 38 → ch ≠ Char.ofNat 60 → ch ≠ Char.ofNat 62 →
      ch ≠ Char.ofNat 160 → escapeHtml (String.singleton ch) = String.singleton ch) ∧
    (∀ s : String, ∀ d ∈ (escapeHtml s).data, d ≠ Char.ofNat 60 ∧ d ≠ Char.ofNat 62) := by
  refine ⟨escapeHtml_append, by decide, by decide, by decide, by decide, by decide,
    by decide, by decide, ?_, escapeHtml_no_angle⟩
  intro ch h1 h2 h3 h4
  simp [escapeHtml, escapeChar, String.singleton, h1, h2, h3, h4]
  rfl


mutual
theorem stripNode_id (h : Host) :
    ∀ n : Node, (∀ as ∈ elementAttrsNode n, ∀ a ∈ as, isDangerousAttr h a = false) →
      stripNode h n = n
  | .text _ _, _ => by simp [stripNode]
  | .comment _ _, _ => by simp [stripNode]
  | .element i n as cs, hn => by
      have h1 : ∀ a ∈ as, (!isDangerousAttr h a) = true := by
        intro a ha
        simp [hn as (by simp [elementAttrsNode]) a ha]
      have h2 : ∀ bs ∈ elementAttrs cs, ∀ a ∈ bs, isDangerousAttr h a = false :=
        fun bs hbs => hn bs (by simp [elementAttrsNode, hbs])
      simp [stripNode, List.filter_eq_self.mpr h1, stripForest_id h cs h2]
theorem stripForest_id (h : Host) :
    ∀ t : List Node, (∀ as ∈ elementAttrs t, ∀ a ∈ as, isDangerousAttr h a = false) →
      stripForest h t = t
  | [], _ => by simp [stripForest]
  | n :: ns, ht => by
      have h1 : ∀ as ∈ elementAttrsNode n, ∀ a ∈ as, isDangerousAttr h a = false :=
        fun as has => ht as (by simp [elementAttrs, has])
      have h2 : ∀ as ∈ elementAttrs ns, ∀ a ∈ as, isDangerousAttr h a = false :=
        fun as has => ht as (by simp [elementAttrs, has])
      simp [stripForest, stripNode_id h n h1, stripForest_id h ns h2]
end

/-! ## Lemmas on the resolver -/

theorem listUrl_ne_directUrl (c : Content) (base id : String) :
    listUrl c base ≠ directUrl c base id := by
  intro h
  have hlen := congrArg String.length h
  simp only [listUrl, directUrl, String.length_append] at hlen
  have : ("/" : String).length = 1 := by decide
  omega

theorem status_404_not_ok (r : Response) (h404 : r.status = 404) : r.ok = false := by
  simp [Response.ok, h404]

theorem prop_arr_truthy (v : Val) (key : String) (items : List Val)
    (h : v.prop key = .arr items) : v.truthy = true := by
  cases v <;> simp [Val.prop, Val.truthy] at h ⊢
  all_goals split_ifs at h

theorem prop_str_truthy (v : Val) (key s : String)
    (h : v.prop key = .str s) : v.truthy = true := by
  cases v <;> simp [Val.prop, Val.truthy] at h ⊢
  all_goals split_ifs at h

theorem truthy_not_nullish (v : Val) (h : v.truthy = true) : v.nullish = false := by
  cases v <;> simp [Val.truthy, Val.nullish] at h ⊢

theorem or_eq_str (a b : Val) (s : String) (h : a.or b = .str s) :
    a = .str s ∨ b = .str s := by
  unfold Val.or at h
  split_ifs at h
  · exact Or.inl h
  · exact Or.inr h

theorem identity_match_truthy (f : Val) (id : String)
    (h : strictEqualsString ((f.prop "_id").or (f.prop "id")) id = true) :
    f.truthy = true := by
  cases hk : (f.prop "_id").or (f.prop "id") with
  | str s =>
      rcases or_eq_str _ _ s hk with h1 | h1
      · exact prop_str_truthy f _ s h1
      · exact prop_str_truthy f _ s h1
  | _ => simp [hk, strictEqualsString] at h

/-- On an array without `null` or `undefined` entries the fallback scan is `List.find?` on
the identity test. -/
theorem findById_eq_find (id : String) :
    ∀ items : List Val, (∀ f ∈ items, f.nullish = false) →
      findById id items = .ok
        ((items.find? (fun f => strictEqualsString ((f.prop "_id").or (f.prop "id")) id)).getD
          .undefined)
  | [], _ => by simp [findById]
  | f :: rest, hwf => by
      have hf : f.nullish = false := hwf f (by simp)
      have hrest : ∀ g ∈ rest, g.nullish = false := fun g hg => hwf g (by simp [hg])
      by_cases hm : strictEqualsString ((f.prop "_id").or (f.prop "id")) id = true
      · simp [findById, identityOf, hf, hm, List.find?]
      · simp [findById, identityOf, hf, hm, List.find?, findById_eq_find id rest hrest]

theorem unwrap_envelope (c : Content) (item : Val) (hitem : item.truthy = true) :
    unwrap c (.obj [("data", .obj [(c.singular, item)])]) = .ok item := by
  simp [unwrap, Val.nullish, Val.prop, Val.optProp, Val.or, hitem]

theorem display_envelope (c : Content) (item : Val) (hitem : item.truthy = true) :
    display c (.ok (.obj [("data", .obj [(c.singular, item)])])) = .rendered item := by
  simp [display, unwrap_envelope c item hitem, hitem]

theorem utf16Length_empty : utf16Length "" = 0 := by decide

theorem prop_truthy (v : Val) (key : String) (h : (v.prop key).truthy = true) :
    v.truthy = true := by
  cases v with
  | str s =>
      by_cases hs : s = ""
      · subst hs
        simp only [Val.prop] at h
        split_ifs at h
        · simp [Val.truthy, utf16Length_empty] at h
        · simp [Val.truthy] at h
      · simp [Val.truthy, hs]
  | _ => simp [Val.prop, Val.truthy] at h ⊢

/-! ## Lemmas on rendering -/

theorem string_join_cons (s : String) (ss : List String) :
    String.join (s :: ss) = s ++ String.join ss := by
  apply String.ext
  simp [String.join_eq, String.data_append]

theorem string_join_nil : String.join [] = "" := rfl

/-- A `forEach` loop whose body never throws appends the entries in order. -/
theorem forEachAppend_ok (entry : Val → Except Thrown String) (f : Val → String) :
    ∀ (xs : List Val) (html : String), (∀ x ∈ xs, entry x = .ok (f x)) →
      forEachAppend entry html xs = .ok (html ++ String.join (xs.map f))
  | [], html, _ => by simp [forEachAppend, string_join_nil]
  | x :: rest, html, hxs => by
      have hx : entry x = .ok (f x) := hxs x (by simp)
      have hrest : ∀ y ∈ rest, entry y = .ok (f y) := fun y hy => hxs y (by simp [hy])
      simp [forEachAppend, hx, forEachAppend_ok entry f rest _ hrest, string_join_cons,
        String.append_assoc]

theorem contentBlock_eq (prim : Val → Val) (c : Val) :
    contentBlock prim c = contentLayout (prim c).toStr := rfl

theorem sectionContent_eq (prim : Val → Val) (sec : Val) :
    sectionContent prim sec
      = String.join ((contentsOf sec).map (fun c => contentLayout (prim c).toStr)) := by
  unfold sectionContent contentsOf
  cases sec.prop "content" <;> simp [string_join_nil, contentBlock_eq]
  rfl

theorem sectionBlock_ok (prim : Val → Val) (sec : Val) (hsec : sec.nullish = false) :
    sectionBlock prim sec = .ok (sectionLayout (escapeHtmlVal (sectionTitleOf sec)).toStr
      ((contentsOf sec).map (fun c => (prim c).toStr))) := by
  simp [sectionBlock, hsec, sectionLayout, sectionContent_eq, sectionTitleOf, List.map_map,
    Function.comp_def]

theorem formatSectionsWith_ok (prim : Val → Val) (ss : List Val)
    (hss : ∀ s ∈ ss, s.nullish = false) :
    formatSectionsWith prim (.arr ss) = .ok (sectionsJoin prim ss) := by
  cases ss with
  | nil => simp [formatSectionsWith, sectionsJoin]
  | cons s rest =>
      simp only [formatSectionsWith, sectionsJoin]
      rw [forEachAppend_ok (sectionBlock prim) _ (s :: rest) ""
        (fun x hx => sectionBlock_ok prim x (hss x hx))]
      simp

theorem formatSectionsWith_layout (prim : Val → Val) (item : Val)
    (hsec : ∀ s ∈ sectionsOf item, s.nullish = false) :
    formatSectionsWith prim ((item.prop "sections").or (.arr []))
      = .ok (sectionsJoin prim (sectionsOf item)) := by
  unfold sectionsOf at hsec
  unfold sectionsOf
  cases hs : item.prop "sections" with
  | arr ss =>
      rw [hs] at hsec
      have : (Val.arr ss).or (.arr []) = .arr ss := by simp [Val.or, Val.truthy]
      rw [this, formatSectionsWith_ok _ ss hsec]
  | undefined => simp [Val.or, Val.truthy, formatSectionsWith, sectionsJoin]
  | null => simp [Val.or, Val.truthy, formatSectionsWith, sectionsJoin]
  | bool b => cases b <;> simp [Val.or, Val.truthy, formatSectionsWith, sectionsJoin]
  | num n =>
      by_cases hn : n = 0
      · simp [Val.or, Val.truthy, formatSectionsWith, sectionsJoin, hn]
      · simp [Val.or, Val.truthy, formatSectionsWith, sectionsJoin, hn]
  | str s =>
      by_cases hn : s = ""
      · simp [Val.or, Val.truthy, formatSectionsWith, sectionsJoin, hn]
      · simp [Val.or, Val.truthy, formatSectionsWith, sectionsJoin, hn]
  | obj fs => simp [Val.or, Val.truthy, formatSectionsWith, sectionsJoin]

theorem formatSections_layout (h : Host) (item : Val)
    (hsec : ∀ s ∈ sectionsOf item, s.nullish = false) :
    formatSections h ((item.prop "sections").or (.arr [])) = .ok (sectionsLayout h item) :=
  formatSectionsWith_layout (sanitizeHtmlVal h) item hsec

theorem detailLink_eq (link : Val) :
    detailLink link = if link.truthy then linkLayout (escapeHtmlVal link).toStr else "" := rfl

/-- The detail renderer, on an item whose sections are not `null`, returns the layout of
the page around the escaped title, the date line, the sanitized introduction, the sections
part and the link line. -/
theorem renderDetail_layout (h : Host) (fmt : Val → String) (item : Val)
    (hitem : item.nullish = false) (hsec : ∀ s ∈ sectionsOf item, s.nullish = false) :
    renderDetail h fmt item = .ok
      (detailLayout (escapeHtmlVal (titleOf item)).toStr (detailDate fmt item)
        (sanitizeHtmlVal h (introOf item)).toStr (sectionsLayout h item)
        (detailLink (linkOf item))) := by
  simp only [renderDetail, hitem, formatSections_layout h item hsec, detailLayout, titleOf,
    introOf, linkOf, Bool.false_eq_true, if_false]

theorem linkAnchor_eq_layout (link : String) : linkAnchor link = linkLayout (escapeHtml link) := by
  simp [linkAnchor, linkLayout, quoted, String.append_assoc]

theorem strictEqualsString_iff (v : Val) (id : String) :
    strictEqualsString v id = true ↔ v = .str id := by
  cases v <;> simp [strictEqualsString]

theorem falsy_ne_str (v : Val) (id : String) (hid : id ≠ "") (hv : v.truthy = false) :
    v ≠ .str id := by
  intro e
  subst e
  simp [Val.truthy, hid] at hv

theorem directUrl_empty (c : Content) (base : String) :
    directUrl c base "" = listUrl c base ++ "/" := by
  simp [directUrl, listUrl]

theorem fetchData_requests_head (c : Content) (base id : String) (backend : Backend) :
    (fetchData c base id backend).requests.head? = some (directUrl c base id) := by
  unfold fetchData
  cases backend (directUrl c base id) with
  | rejected m => rfl
  | response r =>
      by_cases hok : r.ok = true
      · simp [hok]
      · by_cases h404 : r.status = 404
        · simp [hok, h404]
        · simp [hok, h404]

theorem find_pair (p : Val → Bool) (a b : Val) :
    [a, b].find? p = if p a then some a else if p b then some b else none := by
  cases ha : p a <;> cases hb : p b <;> simp [List.find?, ha, hb]

theorem idField_cases (a : Val) (h : a.isIdField = true) :
    (a.isEmptyId = true ∧ a.truthy = false) ∨ (a.isEmptyId = false ∧ a.truthy = true) := by
  cases a with
  | str s =>
      by_cases hs : s = ""
      · left
        simp [Val.isEmptyId, Val.truthy, hs]
      · right
        simp [Val.isEmptyId, Val.truthy, hs]
  | undefined => left; simp [Val.isEmptyId, Val.truthy]
  | null => left; simp [Val.isEmptyId, Val.truthy]
  | _ => simp [Val.isIdField] at h

theorem or_of_truthy (a b : Val) (h : a.truthy = true) : a.or b = a := by
  simp [Val.or, h]

theorem or_of_falsy (a b : Val) (h : a.truthy = false) : a.or b = b := by
  simp [Val.or, h]

/-- On identifier fields the chain `a || b || ""` is the first field that is not empty, or
the empty string; and `a || b` is that field when there is one. -/
theorem id_chain (a b : Val) (ha : a.isIdField = true) (hb : b.isIdField = true) :
    (a.or b).or (.str "") = (([a, b].find? (fun v => !v.isEmptyId)).getD (.str "")) ∧
    (∀ v, [a, b].find? (fun v => !v.isEmptyId) = some v → a.or b = v) := by
  rw [find_pair]
  rcases idField_cases a ha with ⟨ea, ta⟩ | ⟨ea, ta⟩ <;>
    rcases idField_cases b hb with ⟨eb, tb⟩ | ⟨eb, tb⟩ <;>
    simp [Val.or, ea, ta, eb, tb]

theorem httpError_message (r : Response) (errorData : Val) (hbody : r.body = .ok errorData)
    (hdata : errorData.nullish = false) (hmsg : (errorData.prop "message").truthy = true) :
    httpError r = .error (errorData.prop "message").toStr := by
  simp [httpError, Response.json, hbody, hdata, hmsg]
/-! ## The claims -/

/-- C3, at the failing input: `escapeHtml` returns a text made of double and single quotes,
spaces and letters unchanged, so its output contains both quote characters literally; in
the anchor written by the renderer the `href` value then ends at once and the rest of the
link follows it as markup of the tag. -/
theorem escapeHtml_keeps_quotes :
    escapeHtml breakoutLink = breakoutLink ∧
    Char.ofNat 34 ∈ (escapeHtml breakoutLink).data ∧
    Char.ofNat 39 ∈ (escapeHtml breakoutLink).data ∧
    startsWith (linkAnchor breakoutLink)
      ("<p class=" ++ dquote ++ "detail-link" ++ dquote ++ "><a href=" ++ dquote ++ dquote ++
        " onmouseover=" ++ squote ++ "alert(1)" ++ squote ++ " ") = true := by
  decide
/-- C4, counterexample: the direct lookup answers 200 with the body `null`; `fetchData`
issues the direct request only and ends in the `catch` handler with a `TypeError`, so no
item is handed to the renderer. -/
theorem fetchData_ok_null_body :
    okNullBackend (directUrl factsheets "api" "42") = .response ⟨200, .ok .null⟩ ∧
    Response.ok ⟨200, .ok .null⟩ = true ∧
    (fetchData factsheets "api" "42" okNullBackend).requests = ["api/factsheets/42"] ∧
    (fetchData factsheets "api" "42" okNullBackend).outcome = .failed .typeError ∧
    ∀ item, (fetchData factsheets "api" "42" okNullBackend).outcome ≠ .rendered item := by
  refine ⟨rfl, rfl, rfl, rfl, ?_⟩
  intro item h
  have h2 : (fetchData factsheets "api" "42" okNullBackend).outcome = .failed .typeError := rfl
  rw [h2] at h
  cases h

/-- C4, amended: when the direct lookup answers with an OK status, `fetchData` issues the
direct request only, never the collection request; and when the body parses to a payload
whose envelope unwrapping yields a truthy value, that value is the item handed to the
renderer. -/
theorem fetchData_direct_ok (c : Content) (base id : String) (backend : Backend)
    (r : Response) (hr : backend (directUrl c base id) = .response r) (hok : r.ok = true) :
    (fetchData c base id backend).requests = [directUrl c base id] ∧
    listUrl c base ∉ (fetchData c base id backend).requests ∧
    (∀ data item, r.body = .ok data → unwrap c data = .ok item → item.truthy = true →
      (fetchData c base id backend).outcome = .rendered item) := by
  have hreq : (fetchData c base id backend).requests = [directUrl c base id] := by
    simp [fetchData, hr, hok]
  refine ⟨hreq, ?_, ?_⟩
  · rw [hreq]
    simpa using listUrl_ne_directUrl c base id
  · intro data item hbody hun hitem
    simp [fetchData, hr, hok, Response.json, hbody, display, hun, hitem]

/-- Witness of the amended C4 on `directOkBackend`. -/
theorem fetchData_direct_ok_witness :
    (fetchData factsheets "api" "42" directOkBackend).requests = ["api/factsheets/42"] ∧
    (fetchData factsheets "api" "42" directOkBackend).outcome = .rendered sampleItem :=
  have h := fetchData_direct_ok factsheets "api" "42" directOkBackend
    ⟨200, .ok (.obj [("data", .obj [("factsheet", sampleItem)])])⟩ rfl rfl
  ⟨h.1, h.2.2 _ sampleItem rfl rfl rfl⟩

/-- C5: when the direct lookup answers 404 and the collection request answers OK with an
envelope whose collection field is an array without null entries, `fetchData` issues the
direct request and then the collection request, once, and hands to the renderer the first
entry, in collection order, whose identity `_id || id` strictly equals `id`; when no entry
has that identity it fails with the error `Factsheet not found` / `Newsletter not found`. -/
theorem fetchData_fallback_scan (c : Content) (base id : String) (backend : Backend)
    (r listResponse : Response) (listData : Val) (items : List Val)
    (hr : backend (directUrl c base id) = .response r) (h404 : r.status = 404)
    (hl : backend (listUrl c base) = .response listResponse)
    (hlok : listResponse.ok = true) (hbody : listResponse.body = .ok listData)
    (hitems : (listData.prop "data").prop c.plural = .arr items)
    (hwf : ∀ f ∈ items, f.nullish = false) :
    (fetchData c base id backend).requests = [directUrl c base id, listUrl c base] ∧
    (fetchData c base id backend).requests.count (listUrl c base) = 1 ∧
    (fetchData c base id backend).outcome =
      match items.find? (fun f => strictEqualsString ((f.prop "_id").or (f.prop "id")) id) with
      | some f => .rendered f
      | none => .failed (.error (c.label ++ " not found")) := by
  have hnok : r.ok = false := status_404_not_ok r h404
  have hreq : (fetchData c base id backend).requests
      = [directUrl c base id, listUrl c base] := by
    simp [fetchData, hr, hnok, h404]
  have h1 : (listData.prop "data").truthy = true := prop_arr_truthy _ _ _ hitems
  have h0 : listData.truthy = true := prop_truthy _ _ h1
  have hscan : scanCollection c id listData =
      match items.find? (fun f => strictEqualsString ((f.prop "_id").or (f.prop "id")) id) with
      | some f => .ok (.obj [("data", .obj [(c.singular, f)])])
      | none => .error (.error (c.label ++ " not found")) := by
    have h2 : ((listData.prop "data").prop c.plural).truthy = true := by
      rw [hitems]
      rfl
    have h3 : (Val.arr items).truthy = true := rfl
    simp only [scanCollection, h0, h1, h2, h3, Bool.not_true, Bool.or_self,
      Bool.false_eq_true, if_false, hitems, findById_eq_find id items hwf]
    cases hfind : items.find? (fun f => strictEqualsString ((f.prop "_id").or (f.prop "id")) id) with
    | none => simp [Val.truthy]
    | some f =>
        have hf : f.truthy = true :=
          identity_match_truthy f id (by simpa using List.find?_some hfind)
        simp [hf]
  refine ⟨hreq, ?_, ?_⟩
  · rw [hreq]
    have hne : ¬ directUrl c base id = listUrl c base :=
      fun e => listUrl_ne_directUrl c base id e.symm
    simp [List.count_cons, hne]
  · have hout : (fetchData c base id backend).outcome
        = display c (scanCollection c id listData) := by
      simp [fetchData, hr, hnok, h404, fallback, hl, hlok, Response.json, hbody]
    rw [hout, hscan]
    cases hfind : items.find? (fun f => strictEqualsString ((f.prop "_id").or (f.prop "id")) id) with
    | none => simp [display]
    | some f =>
        have hf : f.truthy = true :=
          identity_match_truthy f id (by simpa using List.find?_some hfind)
        simp [display_envelope c f hf]

/-- Witness of C5 on `fallbackBackend`: the second entry of the collection is rendered. -/
theorem fetchData_fallback_scan_witness :
    (fetchData factsheets "api" "42" fallbackBackend).requests
      = ["api/factsheets/42", "api/factsheets"] ∧
    (fetchData factsheets "api" "42" fallbackBackend).outcome = .rendered sampleItem :=
  have h := fetchData_fallback_scan factsheets "api" "42" fallbackBackend
    ⟨404, .error "Unexpected token"⟩ ⟨200, .ok sampleCollection⟩ sampleCollection
    [.obj [("id", .str "7")], sampleItem] rfl rfl rfl rfl rfl rfl
    (by intro f hf; simp at hf; rcases hf with rfl | rfl <;> rfl)
  ⟨h.1, h.2.2⟩

/-- C6: when the direct lookup fails otherwise than with status 404, `fetchData` ends in
the `catch` handler with that failure and issues the direct request only, never the
collection request.  The three cases are a rejected `fetch`, a status that is neither OK
nor 404 (the error built from the body, `httpError`), and an OK status with a body that
does not parse. -/
theorem fetchData_direct_failure (c : Content) (base id : String) (backend : Backend) :
    (∀ m, backend (directUrl c base id) = .rejected m →
      (fetchData c base id backend).outcome = .failed (.rejected m) ∧
      (fetchData c base id backend).requests = [directUrl c base id] ∧
      listUrl c base ∉ (fetchData c base id backend).requests) ∧
    (∀ r, backend (directUrl c base id) = .response r → r.ok = false → r.status ≠ 404 →
      (fetchData c base id backend).outcome = .failed (httpError r) ∧
      (fetchData c base id backend).requests = [directUrl c base id] ∧
      listUrl c base ∉ (fetchData c base id backend).requests) ∧
    (∀ r m, backend (directUrl c base id) = .response r → r.ok = true → r.body = .error m →
      (fetchData c base id backend).outcome = .failed (.rejected m) ∧
      (fetchData c base id backend).requests = [directUrl c base id] ∧
      listUrl c base ∉ (fetchData c base id backend).requests) := by
  have hne := listUrl_ne_directUrl c base id
  refine ⟨?_, ?_, ?_⟩
  · intro m hr
    simp [fetchData, hr, hne]
  · intro r hr hok h404
    simp [fetchData, hr, hok, h404, hne]
  · intro r m hr hok hbody
    simp [fetchData, hr, hok, hne, Response.json, hbody, display]

/-- Witness of C6 on a rejected request, a status 500 and a body that is not JSON. -/
theorem fetchData_direct_failure_witness :
    ((fetchData factsheets "api" "42" offlineBackend).outcome
        = .failed (.rejected "Failed to fetch") ∧
      (fetchData factsheets "api" "42" offlineBackend).requests = ["api/factsheets/42"]) ∧
    ((fetchData factsheets "api" "42" serverErrorBackend).outcome = .failed (.error "boom") ∧
      (fetchData factsheets "api" "42" serverErrorBackend).requests = ["api/factsheets/42"]) ∧
    ((fetchData factsheets "api" "42" garbledBackend).outcome
        = .failed (.rejected "Unexpected token") ∧
      (fetchData factsheets "api" "42" garbledBackend).requests = ["api/factsheets/42"]) :=
  have h1 := (fetchData_direct_failure factsheets "api" "42" offlineBackend).1
    "Failed to fetch" rfl
  have h2 := (fetchData_direct_failure factsheets "api" "42" serverErrorBackend).2.1
    ⟨500, .ok (.obj [("message", .str "boom")])⟩ rfl rfl (by decide)
  have h3 := (fetchData_direct_failure factsheets "api" "42" garbledBackend).2.2
    ⟨200, .error "Unexpected token"⟩ "Unexpected token" rfl rfl rfl
  ⟨⟨h1.1, h1.2.1⟩, ⟨h2.1, h2.2.1⟩, ⟨h3.1, h3.2.1⟩⟩

/-- C7, counterexample: with status 404 on the direct lookup and on the collection request
`fetchData` fails with the error `HTTP error! status: 404`, which is not the error
`Factsheet not found`. -/
theorem fetchData_both_404_message :
    (fetchData factsheets "api" "42" bothMissingBackend).outcome
      = .failed (.error "HTTP error! status: 404") ∧
    (fetchData factsheets "api" "42" bothMissingBackend).outcome
      ≠ .failed (.error "Factsheet not found") := by
  have h : (fetchData factsheets "api" "42" bothMissingBackend).outcome
      = .failed (.error "HTTP error! status: 404") := rfl
  refine ⟨h, ?_⟩
  rw [h]
  intro e
  injection e with e
  injection e with e
  exact absurd e (by decide)

/-- C7, amended: when the direct lookup and the collection request both answer 404,
`fetchData` issues the two requests and fails with the error `HTTP error! status: 404`. -/
theorem fetchData_both_404 (c : Content) (base id : String) (backend : Backend)
    (r listResponse : Response)
    (hr : backend (directUrl c base id) = .response r) (h404 : r.status = 404)
    (hl : backend (listUrl c base) = .response listResponse)
    (hl404 : listResponse.status = 404) :
    (fetchData c base id backend).requests = [directUrl c base id, listUrl c base] ∧
    (fetchData c base id backend).outcome = .failed (.error "HTTP error! status: 404") := by
  have hnok : r.ok = false := status_404_not_ok r h404
  have hlnok : listResponse.ok = false := status_404_not_ok listResponse hl404
  have hs : "HTTP error! status: " ++ toString (404 : Nat) = "HTTP error! status: 404" := by
    decide
  simp [fetchData, hr, hnok, h404, fallback, hl, hlnok, hl404, display, hs]

/-- Witness of the amended C7 on `bothMissingBackend`. -/
theorem fetchData_both_404_witness :
    (fetchData factsheets "api" "42" bothMissingBackend).requests
      = ["api/factsheets/42", "api/factsheets"] ∧
    (fetchData factsheets "api" "42" bothMissingBackend).outcome
      = .failed (.error "HTTP error! status: 404") :=
  fetchData_both_404 factsheets "api" "42" bothMissingBackend
    ⟨404, .error "Unexpected token"⟩ ⟨404, .error "Unexpected token"⟩ rfl rfl rfl rfl

/-- C8: on the fallback path (status 404 on the direct lookup, OK on the collection
request), when the parsed collection response is falsy (absent), or its `data` is falsy
(missing), or the collection field of `data` is falsy (missing), `fetchData` fails with the
error `Unexpected response structure` and hands no item to the renderer. -/
theorem fetchData_malformed_collection (c : Content) (base id : String) (backend : Backend)
    (r listResponse : Response) (listData : Val)
    (hr : backend (directUrl c base id) = .response r) (h404 : r.status = 404)
    (hl : backend (listUrl c base) = .response listResponse)
    (hlok : listResponse.ok = true) (hbody : listResponse.body = .ok listData)
    (hmissing : listData.truthy = false ∨ (listData.prop "data").truthy = false ∨
      ((listData.prop "data").prop c.plural).truthy = false) :
    (fetchData c base id backend).outcome
      = .failed (.error "Unexpected response structure") ∧
    (∀ item, (fetchData c base id backend).outcome ≠ .rendered item) := by
  have hnok : r.ok = false := status_404_not_ok r h404
  have hcond : (!listData.truthy || !(listData.prop "data").truthy ||
      !((listData.prop "data").prop c.plural).truthy) = true := by
    rcases hmissing with h | h | h <;> simp [h]
  have hout : (fetchData c base id backend).outcome
      = .failed (.error "Unexpected response structure") := by
    simp only [fetchData, hr, hnok, h404, fallback, hl, hlok, Response.json, hbody,
      scanCollection, hcond, display, Bool.not_false, Bool.not_true, if_true,
      Bool.false_eq_true, if_false]
  refine ⟨hout, ?_⟩
  intro item h
  rw [hout] at h
  cases h

/-- Witness of C8 on `malformedBackend`, whose envelope has no collection field. -/
theorem fetchData_malformed_collection_witness :
    (fetchData factsheets "api" "42" malformedBackend).outcome
      = .failed (.error "Unexpected response structure") :=
  (fetchData_malformed_collection factsheets "api" "42" malformedBackend
    ⟨404, .error "Unexpected token"⟩ ⟨200, .ok (.obj [("data", .obj [])])⟩
    (.obj [("data", .obj [])]) rfl rfl rfl rfl rfl (Or.inr (Or.inr rfl))).1

/-- C9, counterexample: on a payload whose singular wrapper holds `false` and whose plural
wrapper holds an item, the first value that is not null is `false`, while envelope
unwrapping returns the item of the plural wrapper. -/
theorem unwrap_skips_falsy :
    unwrapFirstNonNull factsheets falsyWrapperPayload = some (.bool false) ∧
    unwrap factsheets falsyWrapperPayload = .ok (.obj [("id", .str "a")]) ∧
    unwrap factsheets falsyWrapperPayload ≠ .ok (.bool false) := by
  refine ⟨rfl, rfl, ?_⟩
  have h : unwrap factsheets falsyWrapperPayload = .ok (.obj [("id", .str "a")]) := rfl
  rw [h]
  intro e
  injection e with e
  cases e

/-- C9, amended: for a payload other than `null` and `undefined`, envelope unwrapping
returns the first truthy value among the value of the singular wrapper and the first
element of the plural wrapper, in this order, and the payload itself when neither is
truthy. -/
theorem unwrap_first_truthy (c : Content) (data : Val) (hdata : data.nullish = false) :
    unwrap c data = .ok
      (([(data.prop "data").optProp c.singular,
          ((data.prop "data").optProp c.plural).optIndex0].find? Val.truthy).getD data) := by
  by_cases h1 : ((data.prop "data").optProp c.singular).truthy = true
  · simp [unwrap, hdata, Val.or, h1, List.find?]
  · by_cases h2 : (((data.prop "data").optProp c.plural).optIndex0).truthy = true
    · simp [unwrap, hdata, Val.or, h1, h2, List.find?]
    · simp [unwrap, hdata, Val.or, h1, h2, List.find?]

/-- Witness of the amended C9 on `falsyWrapperPayload`. -/
theorem unwrap_first_truthy_witness :
    unwrap factsheets falsyWrapperPayload = .ok (.obj [("id", .str "a")]) :=
  unwrap_first_truthy factsheets falsyWrapperPayload rfl
/-- C12: the output of `escapeHtml` contains no literal `<` and no literal `>`; the text
`<b>hi</b>` becomes `&lt;b&gt;hi&lt;/b&gt;`. -/
theorem escapeHtml_no_angle_brackets :
    (∀ s : String, ∀ d ∈ (escapeHtml s).data, d ≠ Char.ofNat 60 ∧ d ≠ Char.ofNat 62) ∧
    escapeHtml "<b>hi</b>" = "&lt;b&gt;hi&lt;/b&gt;" :=
  ⟨escapeHtml_no_angle, by decide⟩

/-- Witness of C12 on the first character of the escaped `<b>hi</b>`. -/
theorem escapeHtml_no_angle_brackets_witness :
    Char.ofNat 38 ≠ Char.ofNat 60 ∧ Char.ofNat 38 ≠ Char.ofNat 62 :=
  escapeHtml_no_angle_brackets.1 "<b>hi</b>" (Char.ofNat 38) (by decide)

/-- C19: the `javascript:` check of `sanitizeHtml` is a prefix test on the lower-cased value
of the attributes named exactly `href` or `src`.  An `href` whose value has a space before
`javascript:` is kept (the value is already lower-case, so lower-casing returns it), and so
is a `javascript:` value on `xlink:href`, `action` or `formaction`: both trees come back
unchanged. -/
theorem sanitizeTree_prefix_test (h : Host) :
    (∀ a : Attr, isDangerousAttr h a = true ↔
      (startsWith a.name "on" = true ∨
        ((a.name = "href" ∨ a.name = "src") ∧
          startsWith (h.toLowerCase a.value) "javascript:" = true))) ∧
    (h.toLowerCase " javascript:alert(1)" = " javascript:alert(1)" →
      sanitizeTree h spacedLinkTree = spacedLinkTree) ∧
    sanitizeTree h otherAttrTree = otherAttrTree := by
  refine ⟨?_, ?_, ?_⟩
  · intro a
    simp only [isDangerousAttr, Bool.or_eq_true, Bool.and_eq_true, beq_iff_eq]
    tauto
  · intro hlow
    have h1 : startsWith "href" "on" = false := by decide
    have h2 : startsWith " javascript:alert(1)" "javascript:" = false := by decide
    simp [sanitizeTree, removeDangerous, dangerousTags, spacedLinkTree, removeTagForest,
      removeTagNode, scrubForest, scrubNode, scrubAttributes, isDangerousAttr, hlow, h1, h2]
  · have h1 : startsWith "xlink:href" "on" = false := by decide
    have h2 : startsWith "action" "on" = false := by decide
    have h3 : startsWith "formaction" "on" = false := by decide
    simp [sanitizeTree, removeDangerous, dangerousTags, otherAttrTree, removeTagForest,
      removeTagNode, scrubForest, scrubNode, scrubAttributes, isDangerousAttr, h1, h2, h3]

/-- Witness of C19 on the plain-text host, whose lower-casing is that of the letters `A` to
`Z`. -/
theorem sanitizeTree_prefix_test_witness :
    sanitizeTree textHost spacedLinkTree = spacedLinkTree :=
  (sanitizeTree_prefix_test textHost).2.1 (by decide)

/-- C13, counterexample: `fetchData` does not reject the empty identifier.  It requests
`api/factsheets/`, and when the backend answers that request with the collection, the first
item of the collection is handed to the renderer. -/
theorem fetchData_empty_id_requests :
    (fetchData factsheets "api" "" trailingSlashBackend).requests = ["api/factsheets/"] ∧
    (fetchData factsheets "api" "" trailingSlashBackend).outcome
      = .rendered (.obj [("id", .str "7")]) :=
  ⟨rfl, rfl⟩

/-- C13, amended: a call of `init` with an API key and an empty identifier (absent, `null`
or the empty string in the options, and absent or empty in the URL) ends with the
missing-identifier error, written into the target when it exists, and issues no request.
The check is made by `init` only: `fetchData` starts with the direct request for whatever
identifier it is given, `collection/` for the empty one. -/
theorem init_missing_identifier (c : Content) (base : String) (input : InitInput)
    (backend : Backend) (hkey : input.apiKey ≠ "")
    (hid : input.id = none ∨ input.id = some "")
    (hurl : input.urlId = none ∨ input.urlId = some "") :
    init c base input backend
      = .missingId (if input.targetExists then some (missingIdMarkup c) else none) ∧
    (init c base input backend).requests = [] ∧
    (∀ other : Backend,
      (fetchData c base "" other).requests.head? = some (listUrl c base ++ "/")) := by
  have hinit : init c base input backend
      = .missingId (if input.targetExists then some (missingIdMarkup c) else none) := by
    rcases hid with hid | hid <;> rcases hurl with hurl | hurl <;>
      simp [init, hkey, hid, hurl]
  refine ⟨hinit, ?_, ?_⟩
  · rw [hinit]
    rfl
  · intro other
    rw [fetchData_requests_head, directUrl_empty]

/-- Witness of the amended C13: no identifier in the options, an empty one in the URL. -/
theorem init_missing_identifier_witness :
    init factsheets "api" ⟨"key", none, some "", true⟩ fallbackBackend
      = .missingId (some (missingIdMarkup factsheets)) ∧
    (init factsheets "api" ⟨"key", none, some "", true⟩ fallbackBackend).requests = [] :=
  have h := init_missing_identifier factsheets "api" ⟨"key", none, some "", true⟩
    fallbackBackend (by decide) (Or.inl rfl) (Or.inr rfl)
  ⟨h.1, h.2.1⟩

/-- C14: for an item whose fields `_id` and `id` are absent or strings, the identifier of
the list widgets (`getFactsheetId`, `getNewsletterId`) is the first of `_id`, `id` that is
not empty, and the empty string when there is none; the expression `_id || id` of the
fallback scan yields the same value when there is one; and for every identifier that is
not empty the fallback scan matches the item exactly when the list widgets give it that
identifier. -/
theorem identity_rule (item : Val) (hitem : item.nullish = false)
    (h1 : (item.prop "_id").isIdField = true) (h2 : (item.prop "id").isIdField = true) :
    getId item = .ok ((firstNonEmptyId item).getD (.str "")) ∧
    (∀ v, firstNonEmptyId item = some v → identityOf item = .ok v) ∧
    (∀ id : String, id ≠ "" →
      (strictEqualsString ((item.prop "_id").or (item.prop "id")) id = true ↔
        getId item = .ok (.str id))) := by
  have hchain := id_chain (item.prop "_id") (item.prop "id") h1 h2
  refine ⟨?_, ?_, ?_⟩
  · simp only [getId, hitem, firstNonEmptyId, Bool.false_eq_true, if_false, hchain.1]
  · intro v hv
    simp only [identityOf, hitem, Bool.false_eq_true, if_false, hchain.2 v hv]
  · intro id hid
    simp only [getId, hitem, Bool.false_eq_true, if_false, strictEqualsString_iff]
    by_cases hk : ((item.prop "_id").or (item.prop "id")).truthy = true
    · rw [or_of_truthy _ (.str "") hk]
      constructor
      · intro e
        rw [e]
      · intro e
        injection e
    · have hk2 : ((item.prop "_id").or (item.prop "id")).truthy = false := by
        simpa using hk
      rw [or_of_falsy _ (.str "") hk2]
      constructor
      · intro e
        exact absurd e (falsy_ne_str _ id hid hk2)
      · intro e
        injection e with e
        injection e with e
        exact absurd e.symm hid

/-- Witness of C14 on `sampleItem`, whose identifier is `42`. -/
theorem identity_rule_witness :
    getId sampleItem = .ok (.str "42") ∧ identityOf sampleItem = .ok (.str "42") :=
  have h := identity_rule sampleItem rfl rfl rfl
  ⟨h.1, h.2.1 (.str "42") rfl⟩

/-- C15: the detail renderer routes each field through one primitive.  On an item whose
sections are not `null` the markup is the layout of the page around `escapeHtml` of the
title, the date line, `sanitizeHtml` of the introduction, one section layout per section
in the original order, each around `escapeHtml` of the section title and `sanitizeHtml` of
each content entry by itself, in the original order, and the link layout around
`escapeHtml` of the link, as `href` value and as text.  On a string the two primitives are
`escapeHtml` and `sanitizeHtml`. -/
theorem renderDetail_routes (h : Host) (fmt : Val → String) (item : Val)
    (hitem : item.nullish = false) (hsec : ∀ s ∈ sectionsOf item, s.nullish = false) :
    renderDetail h fmt item = .ok
      (detailLayout (escapeHtmlVal (titleOf item)).toStr (detailDate fmt item)
        (sanitizeHtmlVal h (introOf item)).toStr
        (match sectionsOf item with
          | [] => noSections
          | s :: rest =>
              String.join ((s :: rest).map (fun sec =>
                sectionLayout (escapeHtmlVal (sectionTitleOf sec)).toStr
                  ((contentsOf sec).map (fun c => (sanitizeHtmlVal h c).toStr)))))
        (if (linkOf item).truthy then linkLayout (escapeHtmlVal (linkOf item)).toStr
          else "")) ∧
    (∀ s : String, (escapeHtmlVal (.str s)).toStr = escapeHtml s) ∧
    (∀ s : String, (sanitizeHtmlVal h (.str s)).toStr = sanitizeHtml h s) := by
  refine ⟨?_, fun _ => rfl, fun _ => rfl⟩
  rw [renderDetail_layout h fmt item hitem hsec, detailLink_eq]
  rfl

/-- Witness of C15 on `fullItem`. -/
theorem renderDetail_routes_witness :
    renderDetail textHost sampleDate fullItem = .ok
      (detailLayout (escapeHtml "Q<1>") (dateLayout "on 2024-01-01")
        (sanitizeHtml textHost "hello")
        (String.join
          [sectionLayout (escapeHtml "S1")
              [sanitizeHtml textHost "c1", sanitizeHtml textHost "c2"],
            sectionLayout "Untitled Section" [sanitizeHtml textHost "c3"]])
        (linkLayout (escapeHtml "http://example.org/"))) :=
  (renderDetail_routes textHost sampleDate fullItem rfl
    (by intro s hs; simp [sectionsOf, fullItem, Val.prop] at hs; rcases hs with rfl | rfl <;> rfl)).1.trans
    (by rfl)

/-- C18: when `fetchData` ends in its `catch` handler, the markup left in the result
element is `<div class="error">Error: `, the message of the error and `</div>`, the message
as it is.  A truthy `message` of the body of a response that is neither OK nor 404 is that
message, converted to a string and neither escaped nor sanitized: the backend that answers
500 with the message `<img src=x onerror=alert(1)>` gets this element into the result
element.  The `catch` handler of `widget.js` writes the same markup. -/
theorem error_surface_verbatim (c : Content) (h : Host) (fmt : Val → String)
    (typeErrorMessage base id : String) (backend : Backend) :
    (∀ e, (fetchData c base id backend).outcome = .failed e →
      surface c h fmt typeErrorMessage (fetchData c base id backend).outcome
        = "<div class=" ++ quoted "error" ++ ">Error: " ++ e.message typeErrorMessage ++
          "</div>") ∧
    (∀ r errorData, backend (directUrl c base id) = .response r → r.ok = false →
      r.status ≠ 404 → r.body = .ok errorData → errorData.nullish = false →
      (errorData.prop "message").truthy = true →
      surface c h fmt typeErrorMessage (fetchData c base id backend).outcome
        = "<div class=" ++ quoted "error" ++ ">Error: " ++ (errorData.prop "message").toStr ++
          "</div>") ∧
    surface factsheets h fmt typeErrorMessage
        (fetchData factsheets "api" "42" markupErrorBackend).outcome
      = "<div class=" ++ quoted "error" ++ ">Error: <img src=x onerror=alert(1)></div>" ∧
    (∀ stringify : Val → String,
      fetchNewsletters stringify fmt typeErrorMessage "api" markupErrorListBackend
        = "<div class=" ++ quoted "error" ++ ">Error: <img src=x onerror=alert(1)></div>") := by
  refine ⟨?_, ?_, ?_, ?_⟩
  · intro e he
    rw [he]
    rfl
  · intro r errorData hr hok h404 hbody hdata hmsg
    have hout : (fetchData c base id backend).outcome = .failed (httpError r) := by
      simp [fetchData, hr, hok, h404]
    rw [hout, httpError_message r errorData hbody hdata hmsg]
    rfl
  · rfl
  · intro stringify
    rfl

/-- Witness of C18 on `serverErrorBackend`, whose message is `boom`. -/
theorem error_surface_verbatim_witness :
    surface factsheets textHost sampleDate "TypeError"
        (fetchData factsheets "api" "42" serverErrorBackend).outcome
      = "<div class=" ++ quoted "error" ++ ">Error: boom</div>" :=
  (error_surface_verbatim factsheets textHost sampleDate "TypeError" "api" "42"
    serverErrorBackend).1 (.error "boom") rfl

end Widgets
